import Mathlib

/-!
# Verification of the dipper IMPC ingestion pipeline

Shallow embedding of `src/dipper/sources/IMPC.py` (the knowledge-graph
construction engine for IMPC genotype-phenotype rows) and of
`src/dipper/models/Provenance.py` (the provenance vocabulary used by it).

The graph sink and the genotype/association/evidence model classes
(`Model`, `Genotype`, `G2PAssoc`, `Evidence`) and `Source.make_id` are
external collaborators of the core (they are not part of the analysed
sources); following the specification they are modelled as opaque event
emitters over an `Event` type, and identifier minting as an idealized
injective content hash of the concatenated parts.  Each per-row graph
mutation of the Python code becomes one `Event` value carrying exactly
the arguments the Python call passes, in the same order as the source.

Python `csv` hands every field to the row loop as a `str`, so row fields
are `String`s and the Python checks `x is None` on them are constantly
false; the embedding mirrors the literal conditions.
-/

namespace Dipper

/-- ASCII word character, Python regex `\w`: alphanumeric or underscore.
(IMPC input is ASCII; the Unicode extension of `\w` is irrelevant here.) -/
def isWordChar (c : Char) : Bool := c.isAlphanum || c == '_'

/-- Worker for `re.sub(r'\W+', '_', s)`: `inRun` records whether the scan
is inside a non-word run whose replacement underscore was already
emitted. -/
def subWAux : Bool → List Char → List Char
  | _, [] => []
  | inRun, c :: cs =>
    if isWordChar c then c :: subWAux false cs
    else if inRun then subWAux true cs
    else '_' :: subWAux true cs

/-- `re.sub(r'\W+', '_', s)` on the character list: every maximal run of
non-word characters is replaced by a single underscore. -/
def subWPlus (l : List Char) : List Char := subWAux false l

/-- `re.sub(r':', '', s)`: delete every colon. -/
def reSubColon (s : String) : String := String.mk (s.data.filter (fun c => c != ':'))

/-- `re.sub(r'\W+', '', s)`: delete every non-word character. -/
def filterNonWord (s : String) : String := String.mk (s.data.filter isWordChar)

/-- `re.sub(r'\s', '_', s)`: each whitespace character becomes an underscore. -/
def subSpace (s : String) : String :=
  String.mk (s.data.map (fun c => if c.isWhitespace then '_' else c))

/-- Python `str.strip()` on a character list: drop whitespace from both
ends. -/
def stripChars (l : List Char) : List Char :=
  ((l.dropWhile Char.isWhitespace).reverse.dropWhile Char.isWhitespace).reverse

/-- Python `str.strip()`. -/
def pyStrip (s : String) : String := String.mk (stripChars s.data)

/-- `re.match(r'MGI', s)`: the string starts with `MGI`. -/
def startsWithMGI (s : String) : Bool :=
  match s.data with
  | 'M' :: 'G' :: 'I' :: _ => true
  | _ => false

/-- `re.match(r'^_', s)`: the string starts with an underscore. -/
def startsWithUnderscore (s : String) : Bool :=
  match s.data with
  | '_' :: _ => true
  | _ => false

/-- IMPC.py line 197: `colony_id = '_:' + re.sub(r'\W+', '_', colony)`. -/
def normColonyId (colony : String) : String := "_:" ++ String.mk (subWPlus colony.data)

/-- IMPC.py lines 199-201: allele accessions not matching `MGI` are rewritten
as blank nodes with colons stripped. -/
def fixAllele (a : String) : String :=
  if startsWithMGI a then a else "_:IMPC-" ++ reSubColon a

/-- `needle.isInfixOf hay` for character lists (Python `re.search` with a
literal pattern: does `needle` occur anywhere in `hay`). -/
def isInfixOfCL (needle : List Char) : List Char → Bool
  | [] => needle.isEmpty
  | c :: t => needle.isPrefixOf (c :: t) || isInfixOfCL needle t

/-- IMPC.py lines 203-211: strain accession normalization
(`EUROCURATE` anywhere → blank node; not starting `MGI` → `IMPC:` prefix). -/
def fixStrain (s : String) : String :=
  if isInfixOfCL "EUROCURATE".data s.data then "_:" ++ s
  else if startsWithMGI s then s
  else "IMPC:" ++ s

/-- IMPC.py lines 222-226: `re.match(r'.*<(.*)>', allele_symbol).group(1)`.
With the greedy leading `.*`, the captured group is the text between the
last `<` that still has a `>` after it and the last `>` of the string;
if no `<`…`>` pattern occurs, the whole symbol is used. -/
def extractSeqAltName (s : String) : String :=
  let rev := s.data.reverse
  match rev.dropWhile (fun c => c != '>') with
  | [] => s
  | _ :: rest =>
    if rest.contains '<' then
      String.mk ((rest.takeWhile (fun c => c != '<')).reverse)
    else s

/-- Modelled from the spec: `Source.make_id` (the Identifier Minter of spec
section 4.1) is not among the analysed sources.  Per the spec it concatenates
the caller's parts (the callers pass one already-concatenated string) and
applies a deterministic, collision-resistant content hash, prefixing the
result with the given marker and a `b`.  The hash is idealized as the
injective encoding `pfx ++ ":b" ++ s`; every equality of minted identifiers
proved below therefore also holds for the real hash (equal input strings),
and every inequality holds under the spec's collision-resistance contract. -/
def make_id (s : String) (pfx : String) : String := pfx ++ ":b" ++ s

/-! ## Controlled-vocabulary constants

`Genotype.zygosity`, `Genotype.genoparts` and the object-property tables of
the genotype model live outside the analysed sources; the spec treats them
as external constant tables (spec section 1).  They are embedded as opaque,
pairwise-distinct tokens: only their identity matters to the pipeline. -/

def zygosityIndeterminate : String := "GENO:0000137"
def zygositySimpleHeterozygous : String := "GENO:0000135"
def zygosityHomozygous : String := "GENO:0000136"
def zygosityHemizygous : String := "GENO:0000134"

def gpGene : String := "genoparts:gene"
def gpVariantLocus : String := "genoparts:variant_locus"
def gpVSLC : String := "genoparts:variant_single_locus_complement"
def gpGVC : String := "genoparts:genomic_variation_complement"
def gpGenomicBackground : String := "genoparts:genomic_background"
def gpMaleGenotype : String := "genoparts:male_genotype"
def gpFemaleGenotype : String := "genoparts:female_genotype"
def gpSexQualifiedGenotype : String := "genoparts:sex_qualified_genotype"

def opHasAlternatePart : String := "geno:has_alternate_part"
def opHasGenotype : String := "geno:has_genotype"

/-- `GraphUtils.object_properties['part_of']` (external collaborator). -/
def guPartOf : String := "graphutils:part_of"

/-- `Model.object_properties['part_of']` (external collaborator). -/
def modelPartOf : String := "model:part_of"

/-- `NCBITaxon:10090`, Mus musculus (IMPC.py line 169). -/
def taxonId : String := "NCBITaxon:10090"

/-- Hard-coded evidence code (IMPC.py line 450). -/
def ecoId : String := "ECO:0000015"

namespace Provenance

/-- `Provenance.provenance_types` from src/dipper/models/Provenance.py
lines 20-31, embedded key by key.  (`GraphUtils.PERSON` is an external
constant, embedded as a token.)  Note the table has an `assertion_process`
entry but no `assertion` entry. -/
def provenance_types (k : String) : Option String :=
  if k = "assay" then some "OBI:0000070"
  else if k = "organization" then some "foaf:organization"
  else if k = "person" then some "graphutils:person"
  else if k = "statistical_hypothesis_test" then some "OBI:0000673"
  else if k = "mixed_model" then some "STATO:0000189"
  else if k = "project" then some "VIVO:Project"
  else if k = "study" then some "OBI:0000471"
  else if k = "variant_classification_guideline" then some "SEPIO:0000037"
  else if k = "assertion_process" then some "SEPIO:0000003"
  else if k = "xref" then some "OIO:hasdbxref"
  else none

/-- `Provenance.object_properties` from src/dipper/models/Provenance.py
lines 33-44, embedded key by key.  Note there is no `is_asserted_in`,
no `is_assertion_supported_by` and no `has_supporting_study` entry. -/
def object_properties (k : String) : Option String :=
  if k = "has_information_provenance" then some "SEPIO:0000106"
  else if k = "has_participant" then some "RO:0000057"
  else if k = "has_agent" then some "SEPIO:0000017"
  else if k = "created_by_agent" then some "SEPIO:0000018"
  else if k = "is_expressed_in" then some "SEPIO:0000015"
  else if k = "output_of" then some "RO:0002353"
  else if k = "specified_by" then some "SEPIO:0000041"
  else if k = "created_at_location" then some "SEPIO:0000019"
  else if k = "created_with_resource" then some "SEPIO:0000022"
  else if k = "measures" then some "SEPIO:measures"
  else none

end Provenance

/-! ## The graph-event model

Each graph-mutating call the row pipeline makes becomes one `Event`
carrying exactly the arguments of the Python call, in call order.
Constructors named `add…` after the corresponding method. -/

inductive Event where
  | addClass (id : String) (label : Option String)
  | addIndividual (id : String) (label : Option String) (typ : Option String)
  | addTriple (subj pred obj : String)
  | addType (id typ : String)
  | addGene (id symbol typ : String)
  | addAllele (id name typ : String)
  | addAlleleOfGene (allele gene : String)
  | addSeqAltToVariantLocus (seqAlt variantLocus : String)
  | addSeqAlt (id name : String)
  | addGenotype (id label : String) (typ : Option String)
  | addParts (part parent rel : String)
  | addPartsToVSLC (vslc allele1 : String) (allele2 : Option String)
      (zygosity : Option String) (rel1 : String) (rel2 : Option String)
  | addVSLCtoParent (vslc parent : String)
  | addSequenceDerivesFrom (child parent : String)
  | addGenomicBackgroundToGenotype (background genotype : String)
  | addTaxon (taxon node : String)
  | addAssociation (assocId subj obj evidenceCode : String)
  | addSupportingEvidence (evidenceLine : String)
  | addSupportingData (evidenceLine : String) (measurements : List (String × String))
  | addDescription (node description : String)
deriving DecidableEq, Repr

/-- One csv row of `ALL_genotype_phenotype.csv.gz`, after the 28-way tuple
unpacking of IMPC.py lines 179-186.  All fields are strings (Python `csv`). -/
structure Row where
  marker_accession_id : String
  marker_symbol : String
  phenotyping_center : String
  colony : String
  sex : String
  zygosity : String
  allele_accession_id : String
  allele_symbol : String
  allele_name : String
  strain_accession_id : String
  strain_name : String
  project_name : String
  project_fullname : String
  pipeline_name : String
  pipeline_stable_id : String
  procedure_stable_id : String
  procedure_name : String
  parameter_stable_id : String
  parameter_name : String
  top_level_mp_term_id : String
  top_level_mp_term_name : String
  mp_term_id : String
  mp_term_name : String
  p_value : String
  percentage_change : String
  effect_size : String
  statistical_method : String
  resource_name : String
deriving DecidableEq, Repr

/-- The two external mapping files (`impc_map` YAML and `impress_map` JSON,
IMPC.py lines 162-166).  Spec section 6: these are external, already
materialized lookups whose missing keys are configuration errors, so they
are modelled as total maps; no claim involves a missing mapping key. -/
structure Maps where
  /-- `impc_map['asserted_by']['IMPC']` -/
  assertedByIMPC : String
  /-- `impc_map['statistical_method'][k]` -/
  statisticalMethod : String → String
  /-- `impc_map['phenotyping_center'][k]` -/
  phenotypingCenter : String → String
  /-- `impc_map['project'][k]` -/
  projectMap : String → String
  /-- `impress_map[k]` -/
  impress : String → String
  /-- `impc_map['measurements']['p_value']` -/
  measP : String
  /-- `impc_map['measurements']['percentage_change']` -/
  measPct : String
  /-- `impc_map['measurements']['effect_size']` -/
  measEff : String

/-- The gene allow-list used in test mode (`IMPC.test_ids`, lines 95-101). -/
def test_ids : List String :=
  ["MGI:109380", "MGI:1347004", "MGI:1353495", "MGI:1913840",
   "MGI:2144157", "MGI:2182928", "MGI:88456", "MGI:96704", "MGI:1913649",
   "MGI:95639", "MGI:1341847", "MGI:104848", "MGI:2442444", "MGI:2444584",
   "MGI:1916948", "MGI:107403", "MGI:1860086", "MGI:1919305",
   "MGI:2384936", "MGI:88135", "MGI:1913367", "MGI:1916571",
   "MGI:2152453", "MGI:1098270"]

/-- `Genotype.zygosity` dictionary lookup used inside `_map_zygosity`
(dict `type_map`, lines 518-523): `dict.get` on the *raw* value. -/
def type_map_get (z : String) : Option String :=
  if z = "heterozygote" then some zygositySimpleHeterozygous
  else if z = "homozygote" then some zygosityHomozygous
  else if z = "hemizygote" then some zygosityHemizygous
  else if z = "not_applicable" then some zygosityIndeterminate
  else none

/-- `IMPC._map_zygosity` (lines 515-528).  Note the slip kept intact:
membership is tested on `zygosity.strip()` but the lookup uses the raw
`zygosity`, so a recognized-but-padded value yields Python `None`. -/
def map_zygosity (z : String) : Option String :=
  if (type_map_get (pyStrip z)).isSome then type_map_get z
  else some zygosityIndeterminate

/-! ## The genotype-model section of `_process_data` (lines 191-433)

The per-row body is decomposed into blocks in source order; each block
definition names the source lines it embeds. -/

/-- `re.sub(r'<.*', rep, label)`: from the first `<` (if any) to the end of
the string is replaced by `rep` (used with `rep` = `<+>`, `<0>`, `<?>`,
lines 325-335). -/
def subAngleFrom (label rep : String) : String :=
  if label.data.contains '<' then
    String.mk (label.data.takeWhile (fun c => c != '<')) ++ rep
  else label

/-- Sex-agnostic genotype id, line 310-313:
`make_id(colony_id + phenotyping_center + zygosity + strain_accession_id)`
(default `MONARCH` prefix of `Source.make_id`). -/
def mintGenotypeId (colonyId center zygosity strain : String) : String :=
  make_id (colonyId ++ center ++ zygosity ++ strain) "MONARCH"

/-- Sex-qualified genotype id, lines 408-411 (adds `sex` at the end). -/
def mintSexQualifiedGenotypeId (colonyId center zygosity strain sex : String) : String :=
  make_id (colonyId ++ center ++ zygosity ++ strain ++ sex) "MONARCH"

def genotypeIdOf (r : Row) : String :=
  mintGenotypeId (normColonyId r.colony) r.phenotyping_center r.zygosity
    (fixStrain r.strain_accession_id)

def sqgIdOf (r : Row) : String :=
  mintSexQualifiedGenotypeId (normColonyId r.colony) r.phenotyping_center r.zygosity
    (fixStrain r.strain_accession_id) r.sex

/-- Lines 244-245: `'_:seqalt' + re.sub(r':', '', allele_accession_id)` when
the marker is known, else (line 250) the allele accession itself. -/
def seqAltIdOf (r : Row) : String :=
  if r.marker_accession_id = "" then fixAllele r.allele_accession_id
  else "_:seqalt" ++ reSubColon (fixAllele r.allele_accession_id)

/-- Lines 234-250: gene, variant locus, allele-of and sequence-alteration
wiring, only when the marker accession is non-empty (an empty one is set to
`None` with a warning, lines 228-232). -/
def markerEvents (r : Row) : List Event :=
  if r.marker_accession_id = "" then []
  else
    [Event.addGene r.marker_accession_id r.marker_symbol gpGene,
     Event.addAllele (fixAllele r.allele_accession_id) r.allele_symbol gpVariantLocus,
     Event.addAlleleOfGene (fixAllele r.allele_accession_id) r.marker_accession_id,
     Event.addSeqAltToVariantLocus ("_:seqalt" ++ reSubColon (fixAllele r.allele_accession_id))
       (fixAllele r.allele_accession_id)]

/-- Line 284-285: the colony VSLC / colony genotype id. -/
def colonyGenotypeIdOf (r : Row) : String :=
  "_:" ++ reSubColon (fixAllele r.allele_accession_id ++ zygosityIndeterminate)

/-- Lines 276-301: the colony individual, the indeterminate-zygosity colony
genotype, its parts, and the colony→genotype triple. -/
def colonyEvents (r : Row) : List Event :=
  [Event.addIndividual (normColonyId r.colony) (some r.colony) (some "ERO:0002002"),
   Event.addGenotype (colonyGenotypeIdOf r) (r.allele_symbol ++ "/<?>") none,
   Event.addParts (fixAllele r.allele_accession_id) (colonyGenotypeIdOf r) opHasAlternatePart,
   Event.addPartsToVSLC (colonyGenotypeIdOf r) (fixAllele r.allele_accession_id) none
     (some zygosityIndeterminate) opHasAlternatePart none,
   Event.addTriple (normColonyId r.colony) opHasGenotype (colonyGenotypeIdOf r)]

/-- Lines 191-314: everything emitted before the zygosity dispatch. -/
def genoPrefixEvents (r : Row) : List Event :=
  markerEvents r
    ++ [Event.addSeqAlt (seqAltIdOf r) (extractSeqAltName r.allele_symbol)]
    ++ colonyEvents r
    ++ [Event.addSequenceDerivesFrom (genotypeIdOf r) (normColonyId r.colony)]

/-- Lines 376-385: the phenotyping-center-specific strain id. -/
def phenoCenterStrainIdOf (r : Row) : String :=
  let pcs0 := reSubColon (fixStrain r.strain_accession_id) ++ "-"
      ++ subSpace r.phenotyping_center ++ "-" ++ filterNonWord r.colony
  if startsWithUnderscore pcs0 then pcs0 else "_:" ++ pcs0

/-- Lines 378-379: the phenotyping-center-specific strain label. -/
def phenoCenterStrainLabelOf (r : Row) : String :=
  r.strain_name ++ "-" ++ r.phenotyping_center ++ "-" ++ r.colony

/-- Lines 363-401: the genomic-background block, emitted only when the
(normalized) strain accession is non-empty. -/
def backgroundEvents (r : Row) : List Event :=
  if fixStrain r.strain_accession_id = "" then []
  else
    [Event.addGenotype (fixStrain r.strain_accession_id) r.strain_name (some gpGenomicBackground),
     Event.addGenotype (phenoCenterStrainIdOf r) (phenoCenterStrainLabelOf r)
       (some gpGenomicBackground),
     Event.addSequenceDerivesFrom (phenoCenterStrainIdOf r) (fixStrain r.strain_accession_id),
     Event.addGenomicBackgroundToGenotype (phenoCenterStrainIdOf r) (genotypeIdOf r),
     Event.addTaxon taxonId (phenoCenterStrainIdOf r)]

/-- Lines 370-398: the genotype label, extended with the center-specific
strain label when a background exists. -/
def genotypeNameOf (r : Row) (vslcName : String) : String :=
  if fixStrain r.strain_accession_id = "" then vslcName
  else vslcName ++ " [" ++ phenoCenterStrainLabelOf r ++ "]"

inductive GenoOut where
  | brk
  | typeErr
  | ok (sqgId : String)
deriving DecidableEq, Repr

/-- Lines 340-433: the continuation of the row after the zygosity dispatch
has chosen `allele2_label` / `allele2_id` / `allele2_rel`.  The first step,
`vslc_id = '-'.join((marker_accession_id, allele_accession_id, zygosity))`
(line 343), joins the marker into a string; when the marker was emptied to
`None` (line 232) this is Python `TypeError` — embedded as `GenoOut.typeErr`. -/
def genoTailEvents (r : Row) (a2Label : String) (a2Id a2Rel : Option String) : List Event :=
  let vslcName := r.allele_symbol ++ "/" ++ a2Label
  let vslcId := "_:" ++ reSubColon (r.marker_accession_id ++ "-"
      ++ fixAllele r.allele_accession_id ++ "-" ++ r.zygosity)
  let genotypeName := genotypeNameOf r vslcName
  let sqType :=
    if r.sex = "male" then gpMaleGenotype
    else if r.sex = "female" then gpFemaleGenotype
    else gpSexQualifiedGenotype
  [Event.addIndividual vslcId (some vslcName) (some gpVSLC),
   Event.addPartsToVSLC vslcId (fixAllele r.allele_accession_id) a2Id
     (map_zygosity r.zygosity) opHasAlternatePart a2Rel,
   Event.addVSLCtoParent vslcId (genotypeIdOf r),
   Event.addType vslcId gpGVC]
  ++ backgroundEvents r
  ++ [Event.addSequenceDerivesFrom (genotypeIdOf r) (normColonyId r.colony),
      Event.addGenotype (genotypeIdOf r) genotypeName none,
      Event.addGenotype (sqgIdOf r) (genotypeName ++ " (" ++ r.sex ++ ")") (some sqType),
      Event.addParts (genotypeIdOf r) (sqgIdOf r) opHasAlternatePart]
  ++ (if fixStrain r.strain_accession_id ≠ "" then
        [Event.addTaxon taxonId (fixStrain r.strain_accession_id)]
      else [Event.addTaxon taxonId (genotypeIdOf r)])

def genoTail (r : Row) (pre : List Event) (a2Label : String) (a2Id a2Rel : Option String) :
    List Event × GenoOut :=
  if r.marker_accession_id = "" then (pre, GenoOut.typeErr)
  else (pre ++ genoTailEvents r a2Label a2Id a2Rel, GenoOut.ok (sqgIdOf r))

/-- Lines 191-433: the genotype-model section of one row, ending either in
the sex-qualified genotype id, in the `break` of an unrecognized zygosity
(lines 337-339, WARNING logged), or in the `TypeError` of line 343. -/
def genoSection (r : Row) : List Event × GenoOut :=
  let pre := genoPrefixEvents r
  if r.zygosity = "heterozygote" then
    genoTail r pre (subAngleFrom r.allele_symbol "<+>") none none
  else if r.zygosity = "homozygote" then
    genoTail r pre r.allele_symbol (some (fixAllele r.allele_accession_id))
      (some opHasAlternatePart)
  else if r.zygosity = "hemizygote" then
    genoTail r pre (subAngleFrom r.allele_symbol "<0>") none none
  else if r.zygosity = "not_applicable" then
    genoTail r pre (subAngleFrom r.allele_symbol "<?>") none none
  else (pre, GenoOut.brk)

/-! ## Provenance chain (`_add_study_provenance`, `_add_evidence`,
`_add_assertion_provenance`, IMPC.py lines 530-720)

Dictionary lookups into `Provenance.provenance_types` /
`Provenance.object_properties` (the class attributes embedded above from
src/dipper/models/Provenance.py) are performed in source evaluation order;
a missing key is Python `KeyError`, embedded as `Except.error`.  Events
already emitted before the error are kept, matching the mutable graph. -/

/-- Study id, lines 592-595: `make_id` of the eight concatenated context
fields, `'_'` prefix. -/
def mintStudyId (center colony projectFullname pipelineStableId procedureStableId
    parameterStableId statisticalMethod resourceName : String) : String :=
  make_id (center ++ colony ++ projectFullname ++ pipelineStableId ++ procedureStableId
    ++ parameterStableId ++ statisticalMethod ++ resourceName) "_"

/-- `IMPC._add_study_provenance` (lines 562-651). -/
def add_study_provenance (m : Maps) (phenotypingCenter colony projectFullname
    pipelineName pipelineStableId procedureStableId procedureName
    parameterStableId parameterName statisticalMethod resourceName : String) :
    List Event × Except String String :=
  let studyBnode := mintStudyId phenotypingCenter colony projectFullname
    pipelineStableId procedureStableId parameterStableId statisticalMethod resourceName
  match Provenance.provenance_types "study" with
  | none => ([], Except.error "KeyError: study")
  | some studyType =>
    let evs1 :=
      [Event.addIndividual studyBnode none (some studyType),
       Event.addIndividual (m.impress procedureStableId) (some procedureName) none,
       -- add_study_parts: `addTriple(study, graph_utils.part_of, part)` per part
       Event.addTriple studyBnode guPartOf (m.impress procedureStableId),
       Event.addTriple studyBnode guPartOf (m.statisticalMethod statisticalMethod),
       Event.addIndividual (m.impress parameterStableId)
         (some (parameterName ++ " (" ++ procedureName ++ ")")) none]
    match Provenance.object_properties "measures" with
    | none => (evs1, Except.error "KeyError: measures")
    | some measures =>
      let evs2 :=
        [Event.addTriple studyBnode measures (m.impress parameterStableId),
         Event.addIndividual (make_id colony "_") (some colony) none]
      match Provenance.provenance_types "organization" with
      | none => (evs1 ++ evs2, Except.error "KeyError: organization")
      | some orgType =>
        let evs3 :=
          [Event.addIndividual (m.phenotypingCenter phenotypingCenter)
            (some phenotypingCenter) (some orgType)]
        match Provenance.object_properties "has_agent" with
        | none => (evs1 ++ evs2 ++ evs3, Except.error "KeyError: has_agent")
        | some hasAgent =>
          let evs4 :=
            [Event.addTriple studyBnode hasAgent (m.phenotypingCenter phenotypingCenter),
             Event.addIndividual (m.impress pipelineStableId) (some pipelineName) none,
             Event.addTriple studyBnode modelPartOf (m.impress pipelineStableId)]
          match Provenance.provenance_types "project" with
          | none => (evs1 ++ evs2 ++ evs3 ++ evs4, Except.error "KeyError: project")
          | some projType =>
            let evs5 :=
              [Event.addIndividual (m.projectMap projectFullname)
                (some projectFullname) (some projType),
               Event.addTriple studyBnode modelPartOf (m.projectMap projectFullname)]
            (evs1 ++ evs2 ++ evs3 ++ evs4 ++ evs5, Except.ok studyBnode)

/-- Evidence-line id, lines 674-675. -/
def mintEvidenceLineId (assocId studyBnode : String) : String :=
  make_id (assocId ++ studyBnode) "_"

/-- `IMPC._add_evidence` (lines 653-720).  The literal missing-value checks
are kept: `p_value is not None or p_value != ""` and
`effect_size is not None or effect_size != ""` (an `or` that is constantly
true for csv strings, since `x is not None` already holds), against
`percentage_change is not None and percentage_change != ''` (an effective
`and`).  Measurement values are kept as their raw strings; the float
coercion of the p-value only changes the stored value, not the emitted
structure.  The final `has_supporting_study` lookup has no entry in
`Provenance.object_properties`, so the call always ends in `KeyError`. -/
def add_evidence (m : Maps) (assocId eco pValue percentageChange effectSize
    studyBnode : String) : List Event × Except String String :=
  let ev := mintEvidenceLineId assocId studyBnode
  let evs1 := [Event.addSupportingEvidence ev, Event.addIndividual ev none (some eco)]
  let meas1 :=
    if True ∨ pValue ≠ "" then [(make_id (ev ++ "p_value" ++ pValue) "_", pValue)]
    else []
  let evs2 := meas1.map (fun kv => Event.addIndividual kv.1 none (some m.measP))
  let meas2 :=
    if percentageChange ≠ "" then
      [(make_id (ev ++ "percentage_change" ++ percentageChange) "_", percentageChange)]
    else []
  let evs3 := meas2.map (fun kv => Event.addIndividual kv.1 none (some m.measPct))
  let meas3 :=
    if True ∨ effectSize ≠ "" then
      [(make_id (ev ++ "effect_size" ++ effectSize) "_", effectSize)]
    else []
  let evs4 := meas3.map (fun kv => Event.addIndividual kv.1 none (some m.measEff))
  let measurements := meas1 ++ meas2 ++ meas3
  let evs5 := [Event.addSupportingData ev measurements]
  match Provenance.object_properties "output_of" with
  | none => (evs1 ++ evs2 ++ evs3 ++ evs4 ++ evs5, Except.error "KeyError: output_of")
  | some outputOf =>
    let evs6 := measurements.map (fun kv => Event.addTriple kv.1 outputOf studyBnode)
    match Provenance.object_properties "has_supporting_study" with
    | none =>
      (evs1 ++ evs2 ++ evs3 ++ evs4 ++ evs5 ++ evs6,
       Except.error "KeyError: has_supporting_study")
    | some hss =>
      (evs1 ++ evs2 ++ evs3 ++ evs4 ++ evs5 ++ evs6
         ++ [Event.addTriple ev hss studyBnode],
       Except.ok ev)

/-- `IMPC._add_assertion_provenance` (lines 530-560).  The very first graph
call looks up `provenance_types['assertion']`, which has no entry in the
`Provenance` model, so the call raises `KeyError` before emitting anything;
had it existed, the next step `provenance_model.add_assertion(...)` would be
`AttributeError` since `Provenance` defines no such method. -/
def add_assertion_provenance (m : Maps) (assocId _evidenceLineBnode : String) :
    List Event × Except String String :=
  let assertionBnode := make_id ("assertion" ++ assocId ++ m.assertedByIMPC) "_"
  match Provenance.provenance_types "assertion" with
  | none => ([], Except.error "KeyError: assertion")
  | some t =>
    ([Event.addIndividual assertionBnode none (some t)],
     Except.error "AttributeError: Provenance has no attribute add_assertion")

/-- Modelled from the spec: `G2PAssoc` (the Association Builder of spec
section 4.4) is not among the analysed sources.  It creates the reified
genotype-phenotype association node with the fixed evidence code and
returns the association's own deterministic identifier; modelled as one
event plus a minted id. -/
def mkAssociation (sqgId phenotypeId : String) : List Event × String :=
  let assocId := make_id ("assoc" ++ sqgId ++ phenotypeId ++ ecoId) "MONARCH"
  ([Event.addAssociation assocId sqgId phenotypeId ecoId], assocId)

/-! ## Numeric rendering (description sentence, lines 469-486)

Python `float(...)`, `round(x, 5)` and the `.4e` format are embedded over
exact decimals: a parsed literal is an integer numerator with a
power-of-ten denominator exponent (`Dec`).  This is the standard
idealization of IEEE doubles for decimal literals of moderate size: for
every input exercised below the decimal and binary computations agree
digit for digit.  Non-finite literals (`inf`, `nan`) and values at the
extreme magnitude thresholds of Python's `repr` are outside the modelled
range. -/

/-- An exact decimal: the value `num / 10 ^ exp`. -/
structure Dec where
  num : Int
  exp : Nat
deriving DecidableEq, Repr

/-- Scan a digit run with PEP-515 single underscores between digits,
starting after an initial digit with accumulated value `v` and `n` digits
read.  Returns (value, digit count, rest). -/
def digitsAux : List Char → Nat → Nat → Nat × Nat × List Char
  | [], v, n => (v, n, [])
  | c :: cs, v, n =>
    if c.isDigit then digitsAux cs (10 * v + (c.toNat - 48)) (n + 1)
    else if c = '_' then
      match cs with
      | d :: cs' =>
        if d.isDigit then digitsAux cs' (10 * v + (d.toNat - 48)) (n + 1)
        else (v, n, c :: cs)
      | [] => (v, n, [c])
    else (v, n, c :: cs)

/-- A nonempty digit run (first character must be a digit). -/
def parseDigits (l : List Char) : Option (Nat × Nat × List Char) :=
  match l with
  | c :: cs => if c.isDigit then some (digitsAux cs (c.toNat - 48) 1) else none
  | [] => none

/-- Optional exponent suffix after the mantissa `num0 / 10 ^ exp0`;
anything left over means the whole parse fails (Python `float` consumes
the entire string). -/
def finishFloat (num0 exp0 : Nat) (rest : List Char) : Option Dec :=
  match rest with
  | [] => some ⟨Int.ofNat num0, exp0⟩
  | 'e' :: t | 'E' :: t =>
    let (neg, t1) :=
      match t with
      | '+' :: u => (false, u)
      | '-' :: u => (true, u)
      | _ => (false, t)
    match parseDigits t1 with
    | some (ev, _, []) =>
      if neg then some ⟨Int.ofNat num0, exp0 + ev⟩
      else some ⟨Int.ofNat (num0 * 10 ^ ev), exp0⟩
    | _ => none
  | _ => none

/-- Unsigned float literal: `digits [. digits?] | . digits`, then exponent. -/
def parseUnsignedFloat (l : List Char) : Option Dec :=
  match parseDigits l with
  | some (iv, _, rest) =>
    match rest with
    | '.' :: rest2 =>
      match parseDigits rest2 with
      | some (fv, fn, rest3) => finishFloat (iv * 10 ^ fn + fv) fn rest3
      | none => finishFloat iv 0 rest2
    | _ => finishFloat iv 0 rest
  | none =>
    match l with
    | '.' :: rest2 =>
      match parseDigits rest2 with
      | some (fv, fn, rest3) => finishFloat fv fn rest3
      | none => none
    | _ => none

/-- Python `float(s)`: strip whitespace, optional sign, decimal literal.
`none` is Python `ValueError`. -/
def pyFloat (s : String) : Option Dec :=
  match stripChars s.data with
  | '+' :: t => parseUnsignedFloat t
  | '-' :: t => (parseUnsignedFloat t).map (fun d => ⟨-d.num, d.exp⟩)
  | t => parseUnsignedFloat t

/-- `a / b` rounded to the nearest integer, ties to even (the rounding of
Python `round` and of float formatting), for `b > 0`. -/
def roundHalfEvenDiv (a b : Int) : Int :=
  let q := Int.fdiv a b
  let r := a - q * b
  if 2 * r < b then q
  else if b < 2 * r then q + 1
  else if q % 2 = 0 then q else q + 1

/-- The decimal value scaled by `10^5` and rounded half-to-even:
`round(x, 5) * 100000` as an integer. -/
def round5Int (d : Dec) : Int :=
  roundHalfEvenDiv (d.num * 100000) (Int.ofNat (10 ^ d.exp))

/-- Zero-pad a natural below 100000 to five digits. -/
def natToPadded5 (n : Nat) : String :=
  let s := toString n
  String.mk (List.replicate (5 - s.length) '0') ++ s

/-- Drop trailing zeros of a digit string. -/
def stripTrailingZeros (s : String) : String :=
  String.mk (s.data.reverse.dropWhile (fun c => c = '0')).reverse

/-- `str(round(float_value, 5))` over the decimal idealization.  Matches
Python `repr` of the resulting float for `1e-4 ≤ |value| < 1e16` and for
zero and the `d * 1e-5` grid below `1e-4`. -/
def pyRound5Str (d : Dec) : String :=
  let m := round5Int d
  if m = 0 then "0.0"
  else
    let sgn := if m < 0 then "-" else ""
    let a := m.natAbs
    if a % 100000 = 0 then sgn ++ toString (a / 100000) ++ ".0"
    else if a < 10 then sgn ++ toString a ++ "e-05"
    else sgn ++ toString (a / 100000) ++ "." ++ stripTrailingZeros (natToPadded5 (a % 100000))

/-- Structural base-10 logarithm (greatest `l` with `10^l ≤ n`, for
`n ≥ 1`), with explicit fuel so that it evaluates in the kernel. -/
def natLog10Fuel : Nat → Nat → Nat
  | 0, _ => 0
  | fuel + 1, n => if n < 10 then 0 else natLog10Fuel fuel (n / 10) + 1

def natLog10 (n : Nat) : Nat := natLog10Fuel n n

/-- Python `'{:.4e}'.format(x)` over the decimal idealization: mantissa
with four digits after the point, exponent sign and at least two exponent
digits. -/
def formatSci4 (d : Dec) : String :=
  if d.num = 0 then "0.0000e+00"
  else
    let sgn := if d.num < 0 then "-" else ""
    let n := d.num.natAbs
    -- exact: 10 ^ e ≤ |value| < 10 ^ (e+1) for e = log10 n - exp
    let e : Int := (natLog10 n : Int) - (d.exp : Int)
    let t : Int := 4 - e
    let ab : Nat × Nat :=
      if 0 ≤ t then (n * 10 ^ t.toNat, 10 ^ d.exp)
      else (n, 10 ^ (d.exp + (-t).toNat))
    let m := roundHalfEvenDiv (Int.ofNat ab.1) (Int.ofNat ab.2)
    let mne : Nat × Int := if 100000 ≤ m then ((10000 : Nat), e + 1) else (m.toNat, e)
    let ds := toString mne.1
    let mantissa := String.mk [ds.data.headD '0'] ++ "." ++ String.mk ds.data.tail
    let esgn := if mne.2 < 0 then "-" else "+"
    let ea := mne.2.natAbs
    let es := if ea < 10 then "0" ++ toString ea else toString ea
    sgn ++ mantissa ++ "e" ++ esgn ++ es

/-- The free-text description, IMPC.py lines 469-486: the `try` branch
formats `round(float(effect_size), 5)` and `'{:.4e}'.format(float(p_value))`;
on `ValueError` from either parse the `except` branch renders both raw
strings verbatim.  Either way `parameter_name` is stripped and the twelve
components are joined with single spaces. -/
def mkDescription (mpTermName phenotypingCenter procedureName parameterName
    effectSize pValue : String) : String :=
  match pyFloat effectSize, pyFloat pValue with
  | some es, some pv =>
    String.intercalate " "
      [mpTermName, "phenotype determined by", phenotypingCenter, "in an",
       procedureName, "assay where", pyStrip parameterName,
       "was measured with an effect_size of", pyRound5Str es,
       "(p =", formatSci4 pv, ")."]
  | _, _ =>
    String.intercalate " "
      [mpTermName, "phenotype determined by", phenotypingCenter, "in an",
       procedureName, "assay where", pyStrip parameterName,
       "was measured with an effect_size of", effectSize,
       "(p =", pValue, ")."]

/-! ## The row pipeline (`_process_data`, lines 151-513) -/

inductive RowResult where
  /-- The row body ran to the end (line 511 reached). -/
  | ok
  /-- A `continue`: test-mode filter (line 188-189) or missing phenotype id
  (lines 444-448, WARNING logged). -/
  | skip
  /-- The `break` of an unrecognized zygosity (line 339). -/
  | brk
  /-- An uncaught Python exception; aborts `_process_data`. -/
  | err (msg : String)
deriving DecidableEq, Repr

/-- One iteration of the row loop: the events added to the graph (kept even
when an exception follows them) and how the iteration ended. -/
def processRow (testMode : Bool) (m : Maps) (r : Row) : List Event × RowResult :=
  if testMode && !(test_ids.contains r.marker_accession_id) then ([], RowResult.skip)
  else
    match genoSection r with
    | (gEvs, GenoOut.brk) => (gEvs, RowResult.brk)
    | (gEvs, GenoOut.typeErr) =>
      (gEvs, RowResult.err "TypeError: sequence item 0: expected str instance, NoneType found")
    | (gEvs, GenoOut.ok sqgId) =>
      if r.mp_term_id = "" then (gEvs, RowResult.skip)
      else
        let assoc := mkAssociation sqgId r.mp_term_id
        let descr := mkDescription r.mp_term_name r.phenotyping_center r.procedure_name
          r.parameter_name r.effect_size r.p_value
        let sp := add_study_provenance m r.phenotyping_center r.colony
          r.project_fullname r.pipeline_name r.pipeline_stable_id r.procedure_stable_id
          r.procedure_name r.parameter_stable_id r.parameter_name r.statistical_method
          r.resource_name
        match sp.2 with
        | Except.error msg => (gEvs ++ assoc.1 ++ sp.1, RowResult.err msg)
        | Except.ok studyBnode =>
          let ev := add_evidence m assoc.2 ecoId r.p_value r.percentage_change
            r.effect_size studyBnode
          match ev.2 with
          | Except.error msg => (gEvs ++ assoc.1 ++ sp.1 ++ ev.1, RowResult.err msg)
          | Except.ok evBnode =>
            let ap := add_assertion_provenance m assoc.2 evBnode
            match ap.2 with
            | Except.error msg => (gEvs ++ assoc.1 ++ sp.1 ++ ev.1 ++ ap.1, RowResult.err msg)
            | Except.ok _ =>
              (gEvs ++ assoc.1 ++ sp.1 ++ ev.1 ++ ap.1
                 ++ [Event.addDescription evBnode descr],
               RowResult.ok)

inductive FileResult where
  /-- The row loop consumed every row. -/
  | completed
  /-- The zygosity `break` stopped the file. -/
  | stoppedBreak
  /-- The row-limit `break` (lines 509-511) stopped the file. -/
  | stoppedLimit
  /-- An exception propagated out of `_process_data`. -/
  | raised (msg : String)
deriving DecidableEq, Repr

/-- The row loop of `_process_data` from line counter `n` on.  The limit
check (lines 509-511: `if not self.testMode and limit is not None and
line_counter > limit: break`) sits at the *end* of the loop body, so it is
reached only by rows that ran to completion; `continue`-skipped rows never
test it. -/
def processRows (testMode : Bool) (limit : Option Nat) (m : Maps) :
    Nat → List Row → List Event × FileResult
  | _, [] => ([], FileResult.completed)
  | n, r :: rs =>
    let lineCounter := n + 1
    let pr := processRow testMode m r
    match pr.2 with
    | RowResult.skip =>
      let rest := processRows testMode limit m lineCounter rs
      (pr.1 ++ rest.1, rest.2)
    | RowResult.brk => (pr.1, FileResult.stoppedBreak)
    | RowResult.err msg => (pr.1, FileResult.raised msg)
    | RowResult.ok =>
      if !testMode && (match limit with | some l => lineCounter > l | none => false) then
        (pr.1, FileResult.stoppedLimit)
      else
        let rest := processRows testMode limit m lineCounter rs
        (pr.1 ++ rest.1, rest.2)

/-- `_process_data` on the data rows of one file (the header row has
already been discarded by `next(filereader)`, line 175); the taxon class
is added once before the loop (line 170). -/
def process_data (testMode : Bool) (limit : Option Nat) (m : Maps) (rows : List Row) :
    List Event × FileResult :=
  let (evs, fr) := processRows testMode limit m 0 rows
  (Event.addClass taxonId none :: evs, fr)

/-- Concatenated events of a list of rows (used to state file-level
theorems). -/
def rowsEvents (m : Maps) (rows : List Row) : List Event :=
  rows.foldr (fun r acc => (processRow false m r).1 ++ acc) []

/-! ## Concrete sample data (for witnesses and counterexamples) -/

/-- A representative well-formed row (fields as in the spec's end-to-end
scenario, section 8). -/
def sampleRow : Row :=
  { marker_accession_id := "MGI:109380"
    marker_symbol := "Maa"
    phenotyping_center := "UCD"
    colony := "MAA:<1>"
    sex := "male"
    zygosity := "homozygote"
    allele_accession_id := "MGI:12345"
    allele_symbol := "Maa<tm1a>"
    allele_name := "targeted mutation 1a"
    strain_accession_id := "MGI:99999"
    strain_name := "C57BL/6N"
    project_name := "IMPC"
    project_fullname := "IMPC Project"
    pipeline_name := "UCD Pipeline"
    pipeline_stable_id := "UCD_001"
    procedure_stable_id := "IMPC_ROT_001"
    procedure_name := "Rotarod"
    parameter_stable_id := "IMPC_ROT_002_001"
    parameter_name := "latency"
    top_level_mp_term_id := "MP:0000001"
    top_level_mp_term_name := "top level"
    mp_term_id := "MP:0001"
    mp_term_name := "abnormal gait"
    p_value := "0.00001"
    percentage_change := "10.0%"
    effect_size := "0.123456789"
    statistical_method := "Mixed Model"
    resource_name := "IMPC" }

/-- `sampleRow` with an empty phenotype id (`mp_term_id`). -/
def skipRow : Row := { sampleRow with mp_term_id := "" }

/-- `sampleRow` with an unrecognized zygosity. -/
def badZygosityRow : Row := { sampleRow with zygosity := "heterozygote+" }

/-- `sampleRow` with an empty gene accession. -/
def noMarkerRow : Row := { sampleRow with marker_accession_id := "" }

/-- A concrete instantiation of the external mapping files. -/
def sampleMaps : Maps :=
  { assertedByIMPC := "IMPC:org-impc"
    statisticalMethod := fun k => "STATO:stat-" ++ k
    phenotypingCenter := fun k => "IMPC:center-" ++ k
    projectMap := fun k => "IMPC:project-" ++ k
    impress := fun k => "IMPRESS:" ++ k
    measP := "IMPC:meas-p-value"
    measPct := "IMPC:meas-percentage-change"
    measEff := "IMPC:meas-effect-size" }

/-! ## Predicates used in theorem statements -/

/-- The four zygosity values recognized by the dispatch of lines 324-339. -/
def knownZygosities : List String :=
  ["heterozygote", "homozygote", "hemizygote", "not_applicable"]

/-- Events that create an Association, Evidence-Line, Assertion or Study
node: the reified association, the evidence-line registration, its
supporting-data bundle, or an individual typed with the evidence code
(evidence lines, line 677) or the `study` provenance type `OBI:0000471`
(line 597-599).  Assertion individuals would also be `addIndividual`
events, typed with `provenance_types['assertion']` — a key that does not
exist, so no assertion node can ever be minted. -/
def mintsCoreProvNode : Event → Bool
  | Event.addAssociation _ _ _ _ => true
  | Event.addSupportingEvidence _ => true
  | Event.addSupportingData _ _ => true
  | Event.addIndividual _ _ (some t) => t == ecoId || t == "OBI:0000471"
  | _ => false

/-- Events of the gene / variant-locus layer (lines 238-247). -/
def isGeneLayerEvent : Event → Bool
  | Event.addGene _ _ _ => true
  | Event.addAllele _ _ _ => true
  | Event.addAlleleOfGene _ _ => true
  | Event.addSeqAltToVariantLocus _ _ => true
  | _ => false

/-- An `addIndividual` event whose type is the given measurement type. -/
def isMeasurementNodeTyped (t : String) : Event → Bool
  | Event.addIndividual _ _ (some t') => t' == t
  | _ => false

/-! ## Helper lemmas -/

theorem str_data_inj {s t : String} (h : s.data = t.data) : s = t :=
  String.toList_inj.mp h

theorem ne_of_length_ne {s t : String} (h : s.length ≠ t.length) : s ≠ t :=
  fun he => h (he ▸ rfl)

theorem make_id_inj {s t p : String} (h : make_id s p = make_id t p) : s = t := by
  have h2 := congrArg String.data h
  simp only [make_id, String.data_append, List.append_assoc] at h2
  exact str_data_inj (List.append_cancel_left (List.append_cancel_left h2))

theorem make_id_length (s p : String) : (make_id s p).length = p.length + 2 + s.length := by
  simp only [make_id, String.length_append]
  rfl

theorem string_mk_length (l : List Char) : (String.mk l).length = l.length := rfl

theorem dropWhile_length_le {α : Type} (p : α → Bool) (l : List α) :
    (l.dropWhile p).length ≤ l.length := by
  induction l with
  | nil => simp
  | cons a t ih =>
    rw [List.dropWhile_cons]
    split
    · exact Nat.le_succ_of_le ih
    · exact le_refl _

theorem subWAux_length_le : ∀ (b : Bool) (l : List Char), (subWAux b l).length ≤ l.length
  | _, [] => by simp [subWAux]
  | b, c :: cs => by
    simp only [subWAux]
    by_cases h : isWordChar c
    · simp only [if_pos h, List.length_cons]
      exact Nat.succ_le_succ (subWAux_length_le false cs)
    · simp only [if_neg h]
      cases b with
      | true =>
        rw [if_pos (by trivial)]
        exact Nat.le_succ_of_le (subWAux_length_le true cs)
      | false =>
        rw [if_neg (by simp)]
        simp only [List.length_cons]
        exact Nat.succ_le_succ (subWAux_length_le true cs)

theorem subWPlus_length_le (l : List Char) : (subWPlus l).length ≤ l.length :=
  subWAux_length_le false l

theorem dropWhile_append_of_all {α : Type} (p : α → Bool) :
    ∀ (l₁ l₂ : List α), (∀ c ∈ l₁, p c = true) →
      (l₁ ++ l₂).dropWhile p = l₂.dropWhile p
  | [], _, _ => rfl
  | a :: l₁, l₂, h => by
    rw [List.cons_append, List.dropWhile_cons_of_pos (h a (List.mem_cons_self a l₁))]
    exact dropWhile_append_of_all p l₁ l₂ (fun c hc => h c (List.mem_cons_of_mem a hc))

theorem subWPlus_word_prefix :
    ∀ (xs ys : List Char), (∀ c ∈ xs, isWordChar c = true) →
      subWPlus (xs ++ ys) = xs ++ subWPlus ys
  | [], _, _ => by simp
  | x :: xs, ys, h => by
    rw [List.cons_append]
    simp only [subWPlus, subWAux]
    rw [if_pos (h x (List.mem_cons_self x xs))]
    have := subWPlus_word_prefix xs ys (fun c hc => h c (List.mem_cons_of_mem x hc))
    simp only [subWPlus] at this
    rw [this]
    rfl

theorem subWAux_true_skips :
    ∀ (r ys : List Char), (∀ c ∈ r, isWordChar c = false) →
      subWAux true (r ++ ys) = subWAux true ys
  | [], _, _ => rfl
  | c :: r, ys, h => by
    rw [List.cons_append]
    simp only [subWAux]
    rw [if_neg (by simp [h c (List.mem_cons_self c r)]), if_pos (by trivial)]
    exact subWAux_true_skips r ys (fun d hd => h d (List.mem_cons_of_mem c hd))

theorem subWAux_true_eq_dropWhile :
    ∀ ys : List Char,
      subWAux true ys = subWAux false (ys.dropWhile (fun d => !isWordChar d))
  | [] => rfl
  | y :: ys => by
    by_cases h : isWordChar y
    · rw [List.dropWhile_cons_of_neg (by simp [h])]
      simp only [subWAux]
      rw [if_pos h, if_pos h]
    · rw [List.dropWhile_cons_of_pos (by simp [h])]
      simp only [subWAux]
      rw [if_neg h, if_pos (by trivial)]
      exact subWAux_true_eq_dropWhile ys

theorem subWPlus_run (r ys : List Char) (hne : r ≠ [])
    (hr : ∀ c ∈ r, isWordChar c = false) :
    subWPlus (r ++ ys) = '_' :: subWPlus (ys.dropWhile (fun d => !isWordChar d)) := by
  cases r with
  | nil => exact absurd rfl hne
  | cons c r' =>
    rw [List.cons_append]
    simp only [subWPlus, subWAux]
    rw [if_neg (by simp [hr c (List.mem_cons_self c r')]), if_neg (by simp),
      subWAux_true_skips r' ys (fun d hd => hr d (List.mem_cons_of_mem c hd)),
      subWAux_true_eq_dropWhile ys]

theorem pvalue_key_ne_pct_key (ev p q : String) :
    ev ++ "p_value" ++ p ≠ ev ++ "percentage_change" ++ q := by
  intro h
  have h2 := congrArg String.data h
  simp only [String.data_append, List.append_assoc] at h2
  have h3 := List.append_cancel_left h2
  have h4 : ('p' :: '_' :: 'v' :: 'a' :: 'l' :: 'u' :: 'e' :: p.data)
      = ('p' :: 'e' :: 'r' :: 'c' :: 'e' :: 'n' :: 't' :: 'a' :: 'g' :: 'e' :: '_'
          :: 'c' :: 'h' :: 'a' :: 'n' :: 'g' :: 'e' :: q.data) := h3
  injection h4 with _ h5
  injection h5 with h6 _
  exact absurd h6 (by decide)

theorem effect_key_ne_pct_key (ev es q : String) :
    ev ++ "effect_size" ++ es ≠ ev ++ "percentage_change" ++ q := by
  intro h
  have h2 := congrArg String.data h
  simp only [String.data_append, List.append_assoc] at h2
  have h3 := List.append_cancel_left h2
  have h4 : ('e' :: 'f' :: 'f' :: 'e' :: 'c' :: 't' :: '_' :: 's' :: 'i' :: 'z' :: 'e' :: es.data)
      = ('p' :: 'e' :: 'r' :: 'c' :: 'e' :: 'n' :: 't' :: 'a' :: 'g' :: 'e' :: '_'
          :: 'c' :: 'h' :: 'a' :: 'n' :: 'g' :: 'e' :: q.data) := h3
  injection h4 with h5 _
  exact absurd h5 (by decide)

/-! ## Structure of the genotype section -/

theorem genoSection_brk (r : Row) (hz : r.zygosity ∉ knownZygosities) :
    genoSection r = (genoPrefixEvents r, GenoOut.brk) := by
  simp only [knownZygosities, List.mem_cons, List.not_mem_nil, or_false, not_or] at hz
  obtain ⟨h1, h2, h3, h4⟩ := hz
  simp [genoSection, h1, h2, h3, h4]

theorem genoSection_known (r : Row) (hm : r.marker_accession_id ≠ "")
    (hz : r.zygosity ∈ knownZygosities) :
    ∃ a2L a2I a2R,
      genoSection r = (genoPrefixEvents r ++ genoTailEvents r a2L a2I a2R,
        GenoOut.ok (sqgIdOf r)) := by
  simp only [knownZygosities, List.mem_cons, List.not_mem_nil, or_false] at hz
  rcases hz with h | h | h | h
  · exact ⟨subAngleFrom r.allele_symbol "<+>", none, none,
      by simp [genoSection, genoTail, h, hm]⟩
  · exact ⟨r.allele_symbol, some (fixAllele r.allele_accession_id), some opHasAlternatePart,
      by simp [genoSection, genoTail, h, hm]⟩
  · exact ⟨subAngleFrom r.allele_symbol "<0>", none, none,
      by simp [genoSection, genoTail, h, hm]⟩
  · exact ⟨subAngleFrom r.allele_symbol "<?>", none, none,
      by simp [genoSection, genoTail, h, hm]⟩

theorem processRow_brk (m : Maps) (r : Row) (hz : r.zygosity ∉ knownZygosities) :
    processRow false m r = (genoPrefixEvents r, RowResult.brk) := by
  simp [processRow, genoSection_brk r hz]

theorem processRow_skip (m : Maps) (r : Row) (s : String)
    (hok : (genoSection r).2 = GenoOut.ok s) (hph : r.mp_term_id = "") :
    processRow false m r = ((genoSection r).1, RowResult.skip) := by
  rcases hgs : genoSection r with ⟨evs, out⟩
  rw [hgs] at hok
  simp only at hok
  subst hok
  simp [processRow, hgs, hph]

theorem markerEvents_no_core (r : Row) : ∀ e ∈ markerEvents r, mintsCoreProvNode e = false := by
  intro e he
  unfold markerEvents at he
  split at he
  · simp at he
  · simp only [List.mem_cons, List.not_mem_nil, or_false] at he
    rcases he with rfl | rfl | rfl | rfl <;> rfl

theorem colonyEvents_no_core (r : Row) : ∀ e ∈ colonyEvents r, mintsCoreProvNode e = false := by
  intro e he
  simp only [colonyEvents, List.mem_cons, List.not_mem_nil, or_false] at he
  rcases he with rfl | rfl | rfl | rfl | rfl <;> rfl

theorem genoPrefixEvents_no_core (r : Row) :
    ∀ e ∈ genoPrefixEvents r, mintsCoreProvNode e = false := by
  intro e he
  simp only [genoPrefixEvents, List.mem_append, List.mem_singleton] at he
  rcases he with ((hm | rfl) | hc) | rfl
  · exact markerEvents_no_core r e hm
  · rfl
  · exact colonyEvents_no_core r e hc
  · rfl

theorem backgroundEvents_no_core (r : Row) :
    ∀ e ∈ backgroundEvents r, mintsCoreProvNode e = false := by
  intro e he
  unfold backgroundEvents at he
  split at he
  · simp at he
  · simp only [List.mem_cons, List.not_mem_nil, or_false] at he
    rcases he with rfl | rfl | rfl | rfl | rfl <;> rfl

theorem genoTailEvents_no_core (r : Row) (a2L : String) (a2I a2R : Option String) :
    ∀ e ∈ genoTailEvents r a2L a2I a2R, mintsCoreProvNode e = false := by
  intro e he
  simp only [genoTailEvents, List.mem_append, List.mem_cons, List.not_mem_nil,
    or_false, or_assoc] at he
  rcases he with rfl | rfl | rfl | rfl | hb | rfl | rfl | rfl | rfl | ht
  · rfl
  · rfl
  · rfl
  · rfl
  · exact backgroundEvents_no_core r e hb
  · rfl
  · rfl
  · rfl
  · rfl
  · split at ht <;> simp only [List.mem_singleton, List.mem_cons, List.not_mem_nil,
      or_false] at ht <;> subst ht <;> rfl

theorem genoSection_typeErr (r : Row) (hm : r.marker_accession_id = "")
    (hz : r.zygosity ∈ knownZygosities) :
    genoSection r = (genoPrefixEvents r, GenoOut.typeErr) := by
  simp only [knownZygosities, List.mem_cons, List.not_mem_nil, or_false] at hz
  rcases hz with h | h | h | h <;> simp [genoSection, genoTail, h, hm]

theorem genoSection_no_core (r : Row) :
    ∀ e ∈ (genoSection r).1, mintsCoreProvNode e = false := by
  intro e he
  by_cases hz : r.zygosity ∈ knownZygosities
  · by_cases hm : r.marker_accession_id = ""
    · rw [genoSection_typeErr r hm hz] at he
      exact genoPrefixEvents_no_core r e he
    · obtain ⟨a2L, a2I, a2R, hgs⟩ := genoSection_known r hm hz
      rw [hgs] at he
      rcases List.mem_append.mp he with h | h
      · exact genoPrefixEvents_no_core r e h
      · exact genoTailEvents_no_core r _ _ _ e h
  · rw [genoSection_brk r hz] at he
    exact genoPrefixEvents_no_core r e he

theorem genoPrefixEvents_ne_nil (r : Row) : genoPrefixEvents r ≠ [] := by
  have hmem : Event.addSeqAlt (seqAltIdOf r) (extractSeqAltName r.allele_symbol)
      ∈ genoPrefixEvents r := by
    simp [genoPrefixEvents]
  exact List.ne_nil_of_mem hmem

/-! ## Reductions of the provenance builders -/

theorem add_study_provenance_eq (m : Maps)
    (c col pf pn pid prid prn paid pan sm rn : String) :
    add_study_provenance m c col pf pn pid prid prn paid pan sm rn =
      ([Event.addIndividual (mintStudyId c col pf pid prid paid sm rn) none
          (some "OBI:0000471"),
        Event.addIndividual (m.impress prid) (some prn) none,
        Event.addTriple (mintStudyId c col pf pid prid paid sm rn) guPartOf (m.impress prid),
        Event.addTriple (mintStudyId c col pf pid prid paid sm rn) guPartOf
          (m.statisticalMethod sm),
        Event.addIndividual (m.impress paid) (some (pan ++ " (" ++ prn ++ ")")) none,
        Event.addTriple (mintStudyId c col pf pid prid paid sm rn) "SEPIO:measures"
          (m.impress paid),
        Event.addIndividual (make_id col "_") (some col) none,
        Event.addIndividual (m.phenotypingCenter c) (some c) (some "foaf:organization"),
        Event.addTriple (mintStudyId c col pf pid prid paid sm rn) "SEPIO:0000017"
          (m.phenotypingCenter c),
        Event.addIndividual (m.impress pid) (some pn) none,
        Event.addTriple (mintStudyId c col pf pid prid paid sm rn) modelPartOf
          (m.impress pid),
        Event.addIndividual (m.projectMap pf) (some pf) (some "VIVO:Project"),
        Event.addTriple (mintStudyId c col pf pid prid paid sm rn) modelPartOf
          (m.projectMap pf)],
       Except.ok (mintStudyId c col pf pid prid paid sm rn)) := rfl

theorem add_evidence_snd (m : Maps) (a e p pc es st : String) :
    (add_evidence m a e p pc es st).2 = Except.error "KeyError: has_supporting_study" := rfl

theorem add_evidence_empty_pct (m : Maps) (a e p es st : String) :
    add_evidence m a e p "" es st =
      ([Event.addSupportingEvidence (mintEvidenceLineId a st),
        Event.addIndividual (mintEvidenceLineId a st) none (some e),
        Event.addIndividual (make_id (mintEvidenceLineId a st ++ "p_value" ++ p) "_")
          none (some m.measP),
        Event.addIndividual (make_id (mintEvidenceLineId a st ++ "effect_size" ++ es) "_")
          none (some m.measEff),
        Event.addSupportingData (mintEvidenceLineId a st)
          [(make_id (mintEvidenceLineId a st ++ "p_value" ++ p) "_", p),
           (make_id (mintEvidenceLineId a st ++ "effect_size" ++ es) "_", es)],
        Event.addTriple (make_id (mintEvidenceLineId a st ++ "p_value" ++ p) "_")
          "RO:0002353" st,
        Event.addTriple (make_id (mintEvidenceLineId a st ++ "effect_size" ++ es) "_")
          "RO:0002353" st],
       Except.error "KeyError: has_supporting_study") := rfl

theorem add_evidence_with_pct (m : Maps) (a e p pc es st : String) (hpc : pc ≠ "") :
    add_evidence m a e p pc es st =
      ([Event.addSupportingEvidence (mintEvidenceLineId a st),
        Event.addIndividual (mintEvidenceLineId a st) none (some e),
        Event.addIndividual (make_id (mintEvidenceLineId a st ++ "p_value" ++ p) "_")
          none (some m.measP),
        Event.addIndividual (make_id (mintEvidenceLineId a st ++ "percentage_change" ++ pc) "_")
          none (some m.measPct),
        Event.addIndividual (make_id (mintEvidenceLineId a st ++ "effect_size" ++ es) "_")
          none (some m.measEff),
        Event.addSupportingData (mintEvidenceLineId a st)
          [(make_id (mintEvidenceLineId a st ++ "p_value" ++ p) "_", p),
           (make_id (mintEvidenceLineId a st ++ "percentage_change" ++ pc) "_", pc),
           (make_id (mintEvidenceLineId a st ++ "effect_size" ++ es) "_", es)],
        Event.addTriple (make_id (mintEvidenceLineId a st ++ "p_value" ++ p) "_")
          "RO:0002353" st,
        Event.addTriple (make_id (mintEvidenceLineId a st ++ "percentage_change" ++ pc) "_")
          "RO:0002353" st,
        Event.addTriple (make_id (mintEvidenceLineId a st ++ "effect_size" ++ es) "_")
          "RO:0002353" st],
       Except.error "KeyError: has_supporting_study") := by
  simp [add_evidence, hpc, mintEvidenceLineId, Provenance.object_properties]

theorem processRow_err (m : Maps) (r : Row) (s : String)
    (hok : (genoSection r).2 = GenoOut.ok s) (hph : r.mp_term_id ≠ "") :
    processRow false m r =
      ((genoSection r).1
        ++ (mkAssociation s r.mp_term_id).1
        ++ (add_study_provenance m r.phenotyping_center r.colony r.project_fullname
              r.pipeline_name r.pipeline_stable_id r.procedure_stable_id r.procedure_name
              r.parameter_stable_id r.parameter_name r.statistical_method r.resource_name).1
        ++ (add_evidence m (mkAssociation s r.mp_term_id).2 ecoId r.p_value
              r.percentage_change r.effect_size
              (mintStudyId r.phenotyping_center r.colony r.project_fullname
                r.pipeline_stable_id r.procedure_stable_id r.parameter_stable_id
                r.statistical_method r.resource_name)).1,
       RowResult.err "KeyError: has_supporting_study") := by
  rcases hgs : genoSection r with ⟨evs, out⟩
  rw [hgs] at hok
  simp only at hok
  subst hok
  simp [processRow, hgs, hph, add_study_provenance_eq, add_evidence_snd]

theorem processRow_ne_ok (tm : Bool) (m : Maps) (r : Row) :
    (processRow tm m r).2 ≠ RowResult.ok := by
  unfold processRow
  split
  · simp
  · rcases hgs : genoSection r with ⟨evs, out⟩
    cases out with
    | brk => simp
    | typeErr => simp
    | ok s =>
      by_cases hph : r.mp_term_id = ""
      · simp [hph]
      · simp [hph, add_study_provenance_eq, add_evidence_snd]

theorem processRows_ne_stoppedLimit (tm : Bool) (lim : Option Nat) (m : Maps) :
    ∀ (n : Nat) (rows : List Row),
      (processRows tm lim m n rows).2 ≠ FileResult.stoppedLimit
  | _, [] => by simp [processRows]
  | n, r :: rs => by
    simp only [processRows]
    rcases hr : processRow tm m r with ⟨evs, res⟩
    cases res with
    | skip => simpa using processRows_ne_stoppedLimit tm lim m (n + 1) rs
    | brk => simp
    | err msg => simp
    | ok => exact absurd (by rw [hr]) (processRow_ne_ok tm m r)

/-! ## Claim C1 -/

/-- C1 (counterexample): a concrete row with an empty `mp_term_id` is
skipped (`continue`) — but it is not "a no-op beyond the logged warning":
its event list is non-empty, containing among others the colony individual
emitted at line 277, because the phenotype check of line 444 runs only
*after* the whole genotype model has been built. -/
theorem C1_counterexample :
    (processRow false sampleMaps skipRow).2 = RowResult.skip
    ∧ (processRow false sampleMaps skipRow).1 ≠ []
    ∧ Event.addIndividual (normColonyId skipRow.colony) (some skipRow.colony)
        (some "ERO:0002002") ∈ (processRow false sampleMaps skipRow).1 := by
  refine ⟨by decide, by decide, by decide⟩

/-- C1 (amended): every row that reaches the phenotype check (recognized
zygosity, non-empty marker accession, past the test filter) with an empty
`mp_term_id` logs a warning and advances to the next row, and contributes
no Association, Evidence-Line, Assertion or Study node — but the genotype
model emitted earlier in the row body remains, so its graph contribution is
not empty. -/
theorem C1_amended_theorem (m : Maps) (r : Row)
    (hph : r.mp_term_id = "") (hm : r.marker_accession_id ≠ "")
    (hz : r.zygosity ∈ knownZygosities) :
    (processRow false m r).2 = RowResult.skip
    ∧ (processRow false m r).1 ≠ []
    ∧ ∀ e ∈ (processRow false m r).1, mintsCoreProvNode e = false := by
  obtain ⟨a2L, a2I, a2R, hgs⟩ := genoSection_known r hm hz
  have hrow := processRow_skip m r (sqgIdOf r) (by rw [hgs]) hph
  rw [hrow]
  refine ⟨rfl, ?_, ?_⟩
  · rw [hgs]
    intro hnil
    rw [List.append_eq_nil] at hnil
    exact genoPrefixEvents_ne_nil r hnil.1
  · intro e he
    exact genoSection_no_core r e he

theorem C1_witness :
    (processRow false sampleMaps skipRow).2 = RowResult.skip
    ∧ ∀ e ∈ (processRow false sampleMaps skipRow).1, mintsCoreProvNode e = false :=
  ⟨(C1_amended_theorem sampleMaps skipRow (by decide) (by decide) (by decide)).1,
   (C1_amended_theorem sampleMaps skipRow (by decide) (by decide) (by decide)).2.2⟩

/-! ## Claim C2 -/

/-- C2: code bug.  `_add_assertion_provenance` looks up
`provenance_types['assertion']`, `object_properties['is_asserted_in']` and
`object_properties['is_assertion_supported_by']`, and calls
`add_assertion`; the `Provenance` model in src/dipper/models/Provenance.py
defines none of them, so the call raises `KeyError: assertion` before
emitting anything — and it is never even reached, because `_add_evidence`
already raises `KeyError: has_supporting_study` (also absent from
`object_properties`) on every row with a non-empty phenotype id.  No
assertion node, no is-asserted-in edge and no is-assertion-supported-by
edge is ever created, and the row fails. -/
theorem C2_theorem :
    (∀ (m : Maps) (assocId evLine : String),
      add_assertion_provenance m assocId evLine
        = ([], Except.error "KeyError: assertion"))
    ∧ Provenance.provenance_types "assertion" = none
    ∧ Provenance.object_properties "is_asserted_in" = none
    ∧ Provenance.object_properties "is_assertion_supported_by" = none
    ∧ Provenance.object_properties "has_supporting_study" = none
    ∧ (processRow false sampleMaps sampleRow).2
        = RowResult.err "KeyError: has_supporting_study" :=
  ⟨fun _ _ _ => rfl, rfl, rfl, rfl, rfl, by decide⟩

/-! ## Claim C3 -/

/-- C3 (counterexample): the sex-agnostic genotype id is minted from the
plain concatenation `colony_id + phenotyping_center + zygosity + strain`
(lines 310-313) before hashing; swapping the adjacent distinct fields
`"a"` and `"aa"` leaves the concatenated string — and hence the minted
identifier, under *any* deterministic hash — unchanged, refuting
"exchanging two unequal fields always changes the resulting identifier". -/
theorem C3_counterexample :
    mintGenotypeId "_:MAA_1_" "a" "aa" "MGI:99999"
      = mintGenotypeId "_:MAA_1_" "aa" "a" "MGI:99999"
    ∧ ("a" : String) ≠ "aa" := by decide

/-- C3 (amended): swapping two adjacent minting-input fields changes the
minted identifier whenever the two fields do not commute as strings
(`x ++ y ≠ y ++ x`); for fields that commute under concatenation (such as
`"a"` and `"aa"`) the minted identifier is unchanged.  Shown for the
sex-agnostic genotype id (swap of center/zygosity) and for the study id
(swap of its first two fields). -/
theorem C3_amended_theorem :
    (∀ colonyId x y strain : String, x ++ y ≠ y ++ x →
      mintGenotypeId colonyId x y strain ≠ mintGenotypeId colonyId y x strain)
    ∧ (∀ x y p3 p4 p5 p6 p7 p8 : String, x ++ y ≠ y ++ x →
      mintStudyId x y p3 p4 p5 p6 p7 p8 ≠ mintStudyId y x p3 p4 p5 p6 p7 p8) := by
  constructor
  · intro c x y s hxy heq
    apply hxy
    have h := make_id_inj heq
    have h2 := congrArg String.data h
    simp only [String.data_append, List.append_assoc] at h2
    have h3 := List.append_cancel_left h2
    have h4 : (x.data ++ y.data) ++ s.data = (y.data ++ x.data) ++ s.data := by
      simpa [List.append_assoc] using h3
    have h5 := List.append_cancel_right h4
    exact str_data_inj (by simpa [String.data_append] using h5)
  · intro x y p3 p4 p5 p6 p7 p8 hxy heq
    apply hxy
    have h := make_id_inj heq
    have h2 := congrArg String.data h
    simp only [String.data_append, List.append_assoc] at h2
    have h4 : (x.data ++ y.data)
          ++ (p3.data ++ (p4.data ++ (p5.data ++ (p6.data ++ (p7.data ++ p8.data)))))
        = (y.data ++ x.data)
          ++ (p3.data ++ (p4.data ++ (p5.data ++ (p6.data ++ (p7.data ++ p8.data))))) := by
      simpa [List.append_assoc] using h2
    have h5 := List.append_cancel_right h4
    exact str_data_inj (by simpa [String.data_append] using h5)

theorem C3_witness :
    mintGenotypeId "_:c" "a" "b" "MGI:1" ≠ mintGenotypeId "_:c" "b" "a" "MGI:1" :=
  C3_amended_theorem.1 "_:c" "a" "b" "MGI:1" (by decide)

/-! ## Claim C4 -/

/-- C4: code bug.  Lines 228-232 deliberately handle an empty
`marker_accession_id` (warning, set to `None`, sequence-alteration id = the
allele accession itself, no gene or variant-locus layer), but line 343 then
evaluates `'-'.join((marker_accession_id, allele_accession_id, zygosity))`
with `marker_accession_id = None`, a Python `TypeError` that aborts the
whole file.  The row does *not* complete: no VSLC, genotype or association
layer is built for it, contrary to the claim.  At the failing input the
events emitted before the exception indeed contain no gene-layer event, and
the sequence alteration carries the allele accession as its id. -/
theorem C4_theorem :
    (processRow false sampleMaps noMarkerRow).2
      = RowResult.err "TypeError: sequence item 0: expected str instance, NoneType found"
    ∧ seqAltIdOf noMarkerRow = fixAllele noMarkerRow.allele_accession_id
    ∧ Event.addSeqAlt (fixAllele noMarkerRow.allele_accession_id)
        (extractSeqAltName noMarkerRow.allele_symbol)
        ∈ (processRow false sampleMaps noMarkerRow).1
    ∧ (∀ e ∈ (processRow false sampleMaps noMarkerRow).1, isGeneLayerEvent e = false)
    ∧ Event.addIndividual (normColonyId noMarkerRow.colony) (some noMarkerRow.colony)
        (some "ERO:0002002") ∈ (processRow false sampleMaps noMarkerRow).1 := by
  decide

/-! ## Claim C5 -/

/-- C5: confirmed.  In a file whose earlier rows all ran to completion or
were skipped, the first row with an unrecognized zygosity emits its partial
output, logs a WARNING (`found unknown zygosity`, line 338) and `break`s:
the file stops, later rows contribute nothing (the equation holds for every
`post`), and the output of the earlier rows is untouched (the graph is
append-only). -/
theorem C5_theorem :
    ∀ (m : Maps) (pre post : List Row) (bad : Row) (n : Nat),
      (∀ r ∈ pre, (processRow false m r).2 = RowResult.ok
        ∨ (processRow false m r).2 = RowResult.skip) →
      bad.zygosity ∉ knownZygosities →
      processRows false none m n (pre ++ bad :: post)
        = (rowsEvents m pre ++ genoPrefixEvents bad, FileResult.stoppedBreak)
  | m, [], post, bad, n, _, hbad => by
    simp only [List.nil_append, processRows, processRow_brk m bad hbad,
      rowsEvents, List.foldr_nil]
  | m, r :: pre, post, bad, n, hpre, hbad => by
    simp only [List.cons_append, processRows, List.append_eq]
    have hr := hpre r (List.mem_cons_self r pre)
    rcases hpr : processRow false m r with ⟨evs, res⟩
    rw [hpr] at hr
    simp only at hr
    have hrec := C5_theorem m pre post bad (n + 1)
      (fun x hx => hpre x (List.mem_cons_of_mem r hx)) hbad
    rcases hr with h | h <;> subst h
    · rw [if_neg (by simp)]
      rw [hrec]
      simp [rowsEvents, hpr, List.append_assoc]
    · rw [hrec]
      simp [rowsEvents, hpr, List.append_assoc]

theorem C5_witness :
    processRows false none sampleMaps 0 [skipRow, badZygosityRow, sampleRow]
      = (rowsEvents sampleMaps [skipRow] ++ genoPrefixEvents badZygosityRow,
         FileResult.stoppedBreak) :=
  C5_theorem sampleMaps [skipRow] [sampleRow] badZygosityRow 0 (by decide) (by decide)

/-! ## Claim C6 -/

/-- C6 (counterexample): the colony name `MAA:<1>` normalizes to
`_:MAA_1_` — the single non-word run `:<` collapses to one underscore —
not to the claimed `_:MAA__1_`. -/
theorem C6_counterexample :
    normColonyId "MAA:<1>" = "_:MAA_1_"
    ∧ ("_:MAA_1_" : String) ≠ "_:MAA__1_" := by decide

/-- C6 (amended): the colony identifier prefixes `_:` to the colony name
with every maximal run of non-word characters (not alphanumeric and not
underscore, Python `\W`) replaced by a single underscore; in particular a
run after a word-character prefix collapses to one `_` irrespective of the
run's content, and `MAA:<1>` normalizes to `MAA_1_` (so the colony id is
`_:MAA_1_`). -/
theorem C6_amended_theorem :
    normColonyId "MAA:<1>" = "_:MAA_1_"
    ∧ (∀ colony : String, normColonyId colony = "_:" ++ String.mk (subWPlus colony.data))
    ∧ (∀ xs r ys : List Char, (∀ c ∈ xs, isWordChar c = true) →
        (∀ c ∈ r, isWordChar c = false) → r ≠ [] →
        subWPlus (xs ++ r ++ ys)
          = xs ++ '_' :: subWPlus (ys.dropWhile (fun d => !isWordChar d))) := by
  refine ⟨by decide, fun _ => rfl, ?_⟩
  intro xs r ys hxs hr hne
  rw [List.append_assoc, subWPlus_word_prefix xs (r ++ ys) hxs, subWPlus_run r ys hne hr]

theorem C6_witness :
    subWPlus ("MAA".data ++ [':', '<'] ++ "1>".data)
      = "MAA".data ++ '_' :: subWPlus ("1>".data.dropWhile (fun d => !isWordChar d)) :=
  C6_amended_theorem.2.2 "MAA".data [':', '<'] "1>".data (by decide) (by decide) (by decide)

/-! ## Claim C7 -/

theorem processRows_all_skip (m : Maps) (lim : Option Nat) :
    ∀ (n : Nat) (rows : List Row),
      (∀ r ∈ rows, (processRow false m r).2 = RowResult.skip) →
      processRows false lim m n rows = (rowsEvents m rows, FileResult.completed)
  | _, [], _ => by simp [processRows, rowsEvents]
  | n, r :: rs, h => by
    simp only [processRows]
    rcases hpr : processRow false m r with ⟨evs, res⟩
    have hr := h r (List.mem_cons_self r rs)
    rw [hpr] at hr
    simp only at hr
    subst hr
    rw [processRows_all_skip m lim (n + 1) rs (fun x hx => h x (List.mem_cons_of_mem r hx))]
    simp [rowsEvents, hpr]

theorem processRow_testmode_skip (m : Maps) (r : Row)
    (h : r.marker_accession_id ∉ test_ids) :
    processRow true m r = ([], RowResult.skip) := by
  have hc : (test_ids.contains r.marker_accession_id) = false := by simpa using h
  simp only [processRow, hc, Bool.not_false, Bool.and_true, if_pos rfl]
  simp

/-- C7 (counterexample): with limit 1 and test mode off, a file of three
rows that are all skipped at the phenotype check is processed to the very
end — nine hundred lines of output for three rows seen — because the limit
check of lines 509-511 sits after the `continue` statements and is never
reached by a skipped row; "halts after exactly N rows have been seen" is
false. -/
theorem C7_counterexample :
    (processRows false (some 1) sampleMaps 0 [skipRow, skipRow, skipRow]).2
      = FileResult.completed
    ∧ (processRows false (some 1) sampleMaps 0 [skipRow, skipRow, skipRow]).1.length
      = 3 * (processRow false sampleMaps skipRow).1.length
    ∧ (processRow false sampleMaps skipRow).1 ≠ [] := by decide

/-- C7 (amended): the row-limit check runs only at the end of a fully
completed row body, so `continue`-skipped rows (test filter, missing
phenotype) never trigger it: a file of skipped rows is processed to the end
whatever the limit.  In this code snapshot no row body ever completes —
every non-skipped row aborts with `KeyError: has_supporting_study` in
`_add_evidence` — so the limit never stops a file at all.  In test mode the
limit is ignored (as claimed) and a row whose marker accession is outside
the allow-list is skipped with no output. -/
theorem C7_amended_theorem :
    (∀ (m : Maps) (lim n : Nat) (rows : List Row),
      (∀ r ∈ rows, (processRow false m r).2 = RowResult.skip) →
      processRows false (some lim) m n rows = (rowsEvents m rows, FileResult.completed))
    ∧ (∀ (tm : Bool) (m : Maps) (r : Row), (processRow tm m r).2 ≠ RowResult.ok)
    ∧ (∀ (tm : Bool) (lim : Option Nat) (m : Maps) (n : Nat) (rows : List Row),
      (processRows tm lim m n rows).2 ≠ FileResult.stoppedLimit)
    ∧ (∀ (m : Maps) (r : Row), r.marker_accession_id ∉ test_ids →
      processRow true m r = ([], RowResult.skip)) :=
  ⟨fun m lim n rows h => processRows_all_skip m (some lim) n rows h,
   processRow_ne_ok,
   fun tm lim m n rows => processRows_ne_stoppedLimit tm lim m n rows,
   processRow_testmode_skip⟩

theorem pct_key_ne_pvalue_key (ev p : String) :
    ev ++ "percentage_change" ≠ ev ++ "p_value" ++ p := by
  intro h
  have h2 := congrArg String.data h
  simp only [String.data_append, List.append_assoc] at h2
  have h3 := List.append_cancel_left h2
  have h4 : ('p' :: 'e' :: 'r' :: 'c' :: 'e' :: 'n' :: 't' :: 'a' :: 'g' :: 'e' :: '_'
        :: 'c' :: 'h' :: 'a' :: 'n' :: 'g' :: 'e' :: ([] : List Char))
      = ('p' :: '_' :: 'v' :: 'a' :: 'l' :: 'u' :: 'e' :: p.data) := h3
  injection h4 with _ h5
  injection h5 with h6 _
  exact absurd h6 (by decide)

theorem pct_key_ne_effect_key (ev es : String) :
    ev ++ "percentage_change" ≠ ev ++ "effect_size" ++ es := by
  intro h
  have h2 := congrArg String.data h
  simp only [String.data_append, List.append_assoc] at h2
  have h3 := List.append_cancel_left h2
  have h4 : ('p' :: 'e' :: 'r' :: 'c' :: 'e' :: 'n' :: 't' :: 'a' :: 'g' :: 'e' :: '_'
        :: 'c' :: 'h' :: 'a' :: 'n' :: 'g' :: 'e' :: ([] : List Char))
      = ('e' :: 'f' :: 'f' :: 'e' :: 'c' :: 't' :: '_' :: 's' :: 'i' :: 'z' :: 'e' :: es.data) := h3
  injection h4 with h5 _
  exact absurd h5 (by decide)

/-! ## Claim C8 -/

/-- C8 (counterexample): the percentage-change check in `_add_evidence`
(line 691) is `percentage_change is not None AND percentage_change != ''`
— an effective filter, not the always-true `or` form the claim asserts —
so a row with an empty percentage-change string mints *no*
percentage-change measurement node, while the effect-size check (line 701,
a genuine always-true `or`) mints an effect-size node even for the empty
string. -/
theorem C8_counterexample :
    ((add_evidence sampleMaps "MONARCH:bassoc" ecoId "0.01" "" "" "_:bstudy").1.any
        (isMeasurementNodeTyped sampleMaps.measPct)) = false
    ∧ ((add_evidence sampleMaps "MONARCH:bassoc" ecoId "0.01" "" "" "_:bstudy").1.any
        (isMeasurementNodeTyped sampleMaps.measEff)) = true := by decide

/-- C8 (amended): only the p-value and effect-size checks are the
always-true `x is not None or x != ""` form: an effect-size node is minted
and added even when the raw effect-size string is empty.  The
percentage-change check uses `and`, so an empty percentage-change string
adds no percentage-change node; a non-empty one does. -/
theorem C8_amended_theorem (m : Maps) (assocId eco p es st : String) :
    Event.addIndividual
        (make_id (mintEvidenceLineId assocId st ++ "effect_size" ++ es) "_")
        none (some m.measEff)
      ∈ (add_evidence m assocId eco p "" es st).1
    ∧ (∀ lb t : Option String,
        Event.addIndividual
          (make_id (mintEvidenceLineId assocId st ++ "percentage_change") "_") lb t
          ∉ (add_evidence m assocId eco p "" es st).1)
    ∧ (∀ pc : String, pc ≠ "" →
        Event.addIndividual
          (make_id (mintEvidenceLineId assocId st ++ "percentage_change" ++ pc) "_")
          none (some m.measPct)
          ∈ (add_evidence m assocId eco p pc es st).1) := by
  refine ⟨?_, ?_, ?_⟩
  · rw [add_evidence_empty_pct]
    simp
  · intro lb t hmem
    rw [add_evidence_empty_pct] at hmem
    simp only [List.mem_cons, List.not_mem_nil, or_false] at hmem
    rcases hmem with h | h | h | h | h | h | h
    · exact Event.noConfusion h
    · injection h with h1 _ _
      have hl := congrArg String.length h1
      have h17 : ("percentage_change" : String).length = 17 := rfl
      have hu : ("_" : String).length = 1 := rfl
      simp only [mintEvidenceLineId, make_id_length, String.length_append, h17, hu] at hl
      omega
    · injection h with h1 _ _
      exact pct_key_ne_pvalue_key _ _ (make_id_inj h1)
    · injection h with h1 _ _
      exact pct_key_ne_effect_key _ _ (make_id_inj h1)
    · exact Event.noConfusion h
    · exact Event.noConfusion h
    · exact Event.noConfusion h
  · intro pc hpc
    rw [add_evidence_with_pct m assocId eco p pc es st hpc]
    simp

theorem C8_witness :
    Event.addIndividual
      (make_id (mintEvidenceLineId "MONARCH:bassoc" "_:bstudy"
        ++ "percentage_change" ++ "7.5") "_")
      none (some sampleMaps.measPct)
      ∈ (add_evidence sampleMaps "MONARCH:bassoc" ecoId "0.01" "7.5" "0.2" "_:bstudy").1 :=
  (C8_amended_theorem sampleMaps "MONARCH:bassoc" ecoId "0.01" "0.2" "_:bstudy").2.2
    "7.5" (by decide)

theorem startsWithMGI_data {s : String} (h : startsWithMGI s = true) :
    ∃ t, s.data = 'M' :: 'G' :: 'I' :: t := by
  unfold startsWithMGI at h
  split at h
  · next heq => exact ⟨_, heq⟩
  · exact absurd h (by simp)

theorem fixAllele_filter_head (a z : String) :
    ∃ t, ((fixAllele a).data ++ z.data).filter (fun c => c != ':') = 'M' :: t
      ∨ ((fixAllele a).data ++ z.data).filter (fun c => c != ':') = '_' :: t := by
  unfold fixAllele
  split
  · next h =>
    obtain ⟨t0, hd⟩ := startsWithMGI_data h
    refine ⟨(('G' :: 'I' :: t0 ++ z.data).filter (fun c => c != ':')), Or.inl ?_⟩
    rw [hd]
    simp [List.filter_cons]
  · refine ⟨(('I' :: 'M' :: 'P' :: 'C' :: '-' :: ((reSubColon a).data ++ z.data)).filter
      (fun c => c != ':')), Or.inr ?_⟩
    rw [String.data_append]
    show (('_' :: ':' :: 'I' :: 'M' :: 'P' :: 'C' :: '-' :: (reSubColon a).data)
        ++ z.data).filter (fun c => c != ':') = _
    simp [List.filter_cons]

theorem genoPrefixEvents_triples (r : Row) :
    ∀ e ∈ genoPrefixEvents r, ∀ s p o, e = Event.addTriple s p o →
      s = normColonyId r.colony ∧ o = colonyGenotypeIdOf r := by
  intro e he s p o hE
  subst hE
  simp only [genoPrefixEvents, List.mem_append, List.mem_singleton] at he
  rcases he with ((hmk | h) | hcol) | h
  · unfold markerEvents at hmk
    split at hmk
    · simp at hmk
    · simp only [List.mem_cons, List.not_mem_nil, or_false] at hmk
      rcases hmk with h | h | h | h <;> exact Event.noConfusion h
  · exact Event.noConfusion h
  · simp only [colonyEvents, List.mem_cons, List.not_mem_nil, or_false] at hcol
    rcases hcol with h | h | h | h | h
    · exact Event.noConfusion h
    · exact Event.noConfusion h
    · exact Event.noConfusion h
    · exact Event.noConfusion h
    · injection h with h1 h2 h3
      exact ⟨h1, h3⟩
  · exact Event.noConfusion h

theorem genoTailEvents_no_triples (r : Row) (a2L : String) (a2I a2R : Option String) :
    ∀ e ∈ genoTailEvents r a2L a2I a2R, ∀ s p o, e ≠ Event.addTriple s p o := by
  intro e he s p o hE
  subst hE
  simp only [genoTailEvents, List.mem_append, List.mem_cons, List.not_mem_nil,
    or_false, or_assoc] at he
  rcases he with h | h | h | h | hb | h | h | h | h | ht
  · exact Event.noConfusion h
  · exact Event.noConfusion h
  · exact Event.noConfusion h
  · exact Event.noConfusion h
  · unfold backgroundEvents at hb
    split at hb
    · simp at hb
    · simp only [List.mem_cons, List.not_mem_nil, or_false] at hb
      rcases hb with h | h | h | h | h <;> exact Event.noConfusion h
  · exact Event.noConfusion h
  · exact Event.noConfusion h
  · exact Event.noConfusion h
  · exact Event.noConfusion h
  · split at ht <;>
      simp only [List.mem_singleton, List.mem_cons, List.not_mem_nil, or_false] at ht <;>
      exact Event.noConfusion ht

theorem make_id_ne_of_longer {s t : String} (h : t.length < s.length) :
    make_id s "_" ≠ make_id t "_" :=
  fun he => absurd (make_id_inj he) (ne_of_length_ne (by omega))

theorem add_study_provenance_triples (m : Maps)
    (c col pf pn pid prid prn paid pan sm rn : String) :
    ∀ e ∈ (add_study_provenance m c col pf pn pid prid prn paid pan sm rn).1,
      ∀ s' p' o', e = Event.addTriple s' p' o' →
        s' = mintStudyId c col pf pid prid paid sm rn
        ∧ (o' = m.impress prid ∨ o' = m.statisticalMethod sm ∨ o' = m.impress paid
           ∨ o' = m.phenotypingCenter c ∨ o' = m.impress pid ∨ o' = m.projectMap pf) := by
  intro e he s' p' o' hE
  rw [add_study_provenance_eq] at he
  simp only [List.mem_cons, List.not_mem_nil, or_false] at he
  rcases he with rfl|rfl|rfl|rfl|rfl|rfl|rfl|rfl|rfl|rfl|rfl|rfl|rfl
  · exact Event.noConfusion hE
  · exact Event.noConfusion hE
  · injection hE with h1 _ h3
    exact ⟨h1.symm, Or.inl h3.symm⟩
  · injection hE with h1 _ h3
    exact ⟨h1.symm, Or.inr (Or.inl h3.symm)⟩
  · exact Event.noConfusion hE
  · injection hE with h1 _ h3
    exact ⟨h1.symm, Or.inr (Or.inr (Or.inl h3.symm))⟩
  · exact Event.noConfusion hE
  · exact Event.noConfusion hE
  · injection hE with h1 _ h3
    exact ⟨h1.symm, Or.inr (Or.inr (Or.inr (Or.inl h3.symm)))⟩
  · exact Event.noConfusion hE
  · injection hE with h1 _ h3
    exact ⟨h1.symm, Or.inr (Or.inr (Or.inr (Or.inr (Or.inl h3.symm))))⟩
  · exact Event.noConfusion hE
  · injection hE with h1 _ h3
    exact ⟨h1.symm, Or.inr (Or.inr (Or.inr (Or.inr (Or.inr h3.symm))))⟩

theorem add_evidence_triples (m : Maps) (a eco p pc es st : String) :
    ∀ e ∈ (add_evidence m a eco p pc es st).1, ∀ s' p' o', e = Event.addTriple s' p' o' →
      (∃ key val, s' = make_id (mintEvidenceLineId a st ++ key ++ val) "_") ∧ o' = st := by
  intro e he s' p' o' hE
  by_cases hpc : pc = ""
  · subst hpc
    rw [add_evidence_empty_pct] at he
    simp only [List.mem_cons, List.not_mem_nil, or_false] at he
    rcases he with rfl|rfl|rfl|rfl|rfl|rfl|rfl
    · exact Event.noConfusion hE
    · exact Event.noConfusion hE
    · exact Event.noConfusion hE
    · exact Event.noConfusion hE
    · exact Event.noConfusion hE
    · injection hE with h1 _ h3
      exact ⟨⟨"p_value", p, h1.symm⟩, h3.symm⟩
    · injection hE with h1 _ h3
      exact ⟨⟨"effect_size", es, h1.symm⟩, h3.symm⟩
  · rw [add_evidence_with_pct m a eco p pc es st hpc] at he
    simp only [List.mem_cons, List.not_mem_nil, or_false] at he
    rcases he with rfl|rfl|rfl|rfl|rfl|rfl|rfl|rfl|rfl|rfl
    · exact Event.noConfusion hE
    · exact Event.noConfusion hE
    · exact Event.noConfusion hE
    · exact Event.noConfusion hE
    · exact Event.noConfusion hE
    · exact Event.noConfusion hE
    · injection hE with h1 _ h3
      exact ⟨⟨"p_value", p, h1.symm⟩, h3.symm⟩
    · injection hE with h1 _ h3
      exact ⟨⟨"percentage_change", pc, h1.symm⟩, h3.symm⟩
    · injection hE with h1 _ h3
      exact ⟨⟨"effect_size", es, h1.symm⟩, h3.symm⟩

/-! ## Claim C10 -/

/-- C10: confirmed.  Every row that reaches provenance building (past the
test filter, recognized zygosity, non-empty marker and phenotype id) adds
two *distinct* individuals for the same colony: the genotype-model colony
node `'_:' + re.sub(r'\W+', '_', colony)` typed as an ES cell line
(line 277), and a second, hash-minted blank node from the raw colony name
inside `_add_study_provenance` (lines 622-623, untyped); and no `addTriple`
of the row has the second node as subject or object — in particular it is
linked neither to the study node nor to the first colony node.  The
phenotyping center must be non-empty and the external map values must
differ from the minted colony node; these hold for any real configuration
and correspond to the no-collision side conditions of the spec's
collision-resistant minting contract. -/
theorem C10_theorem (m : Maps) (r : Row)
    (hm : r.marker_accession_id ≠ "") (hz : r.zygosity ∈ knownZygosities)
    (hph : r.mp_term_id ≠ "") (hc : r.phenotyping_center ≠ "")
    (h1 : m.impress r.procedure_stable_id ≠ make_id r.colony "_")
    (h2 : m.statisticalMethod r.statistical_method ≠ make_id r.colony "_")
    (h3 : m.impress r.parameter_stable_id ≠ make_id r.colony "_")
    (h4 : m.phenotypingCenter r.phenotyping_center ≠ make_id r.colony "_")
    (h5 : m.impress r.pipeline_stable_id ≠ make_id r.colony "_")
    (h6 : m.projectMap r.project_fullname ≠ make_id r.colony "_") :
    Event.addIndividual (normColonyId r.colony) (some r.colony) (some "ERO:0002002")
      ∈ (processRow false m r).1
    ∧ Event.addIndividual (make_id r.colony "_") (some r.colony) none
      ∈ (processRow false m r).1
    ∧ make_id r.colony "_" ≠ normColonyId r.colony
    ∧ ∀ e ∈ (processRow false m r).1, ∀ s p o, e = Event.addTriple s p o →
        s ≠ make_id r.colony "_" ∧ o ≠ make_id r.colony "_" := by
  obtain ⟨a2L, a2I, a2R, hgs⟩ := genoSection_known r hm hz
  have hrow := processRow_err m r (sqgIdOf r) (by rw [hgs]) hph
  -- the phenotyping center is non-empty, so its length is positive
  have hdne : r.phenotyping_center.data ≠ [] :=
    fun hd => hc (str_data_inj (by rw [hd]))
  have hcpos : 0 < r.phenotyping_center.data.length := by
    cases hld : r.phenotyping_center.data with
    | nil => exact absurd hld hdne
    | cons c t => simp [hld]
  -- the two colony nodes are distinct
  have hlen1 : (subWPlus r.colony.data).length ≤ r.colony.data.length :=
    subWPlus_length_le _
  have hF1 : make_id r.colony "_" ≠ normColonyId r.colony := by
    apply ne_of_length_ne
    show ("_" ++ ":b" ++ r.colony).length
      ≠ ("_:" ++ String.mk (subWPlus r.colony.data)).length
    simp only [String.length_append, string_mk_length]
    have e1 : ("_" : String).length = 1 := rfl
    have e2 : (":b" : String).length = 2 := rfl
    have e3 : ("_:" : String).length = 2 := rfl
    have e4 : r.colony.length = r.colony.data.length := rfl
    omega
  -- the study node differs from the minted colony node
  have hF2 : mintStudyId r.phenotyping_center r.colony r.project_fullname
      r.pipeline_stable_id r.procedure_stable_id r.parameter_stable_id
      r.statistical_method r.resource_name ≠ make_id r.colony "_" := by
    unfold mintStudyId
    apply make_id_ne_of_longer
    simp only [String.length_append]
    have e4 : r.phenotyping_center.length = r.phenotyping_center.data.length := rfl
    omega
  -- the colony genotype node differs from the minted colony node
  have hF3 : colonyGenotypeIdOf r ≠ make_id r.colony "_" := by
    intro h
    obtain ⟨t, ht⟩ := fixAllele_filter_head r.allele_accession_id zygosityIndeterminate
    have hd := congrArg String.data h
    simp only [colonyGenotypeIdOf, reSubColon, make_id, String.data_append] at hd
    rcases ht with ht | ht
    · rw [ht] at hd
      have h3' : ('_' :: ':' :: 'M' :: t : List Char)
          = '_' :: ':' :: 'b' :: r.colony.data := hd
      injection h3' with _ h4
      injection h4 with _ h5
      injection h5 with h6 _
      exact absurd h6 (by decide)
    · rw [ht] at hd
      have h3' : ('_' :: ':' :: '_' :: t : List Char)
          = '_' :: ':' :: 'b' :: r.colony.data := hd
      injection h3' with _ h4
      injection h4 with _ h5
      injection h5 with h6 _
      exact absurd h6 (by decide)
  -- measurement nodes differ from the minted colony node
  have hkey : ∀ key val : String,
      make_id (mintEvidenceLineId ((mkAssociation (sqgIdOf r) r.mp_term_id).2)
          (mintStudyId r.phenotyping_center r.colony r.project_fullname
            r.pipeline_stable_id r.procedure_stable_id r.parameter_stable_id
            r.statistical_method r.resource_name)
        ++ key ++ val) "_" ≠ make_id r.colony "_" := by
    intro key val
    apply make_id_ne_of_longer
    have e1 : ("_" : String).length = 1 := rfl
    simp only [String.length_append, mintEvidenceLineId, mintStudyId, make_id_length, e1]
    omega
  refine ⟨?_, ?_, hF1, ?_⟩
  · rw [hrow, hgs]
    simp [genoPrefixEvents, colonyEvents]
  · rw [hrow, add_study_provenance_eq]
    simp
  · intro e he s p o hE
    rw [hrow, hgs] at he
    simp only [List.mem_append, or_assoc] at he
    rcases he with h | h | h | h | h
    · obtain ⟨hs, ho⟩ := genoPrefixEvents_triples r e h s p o hE
      subst hs
      subst ho
      exact ⟨fun hq => hF1 hq.symm, fun hq => hF3 hq⟩
    · exact absurd hE (genoTailEvents_no_triples r a2L a2I a2R e h s p o)
    · simp only [mkAssociation, List.mem_singleton] at h
      subst h
      exact Event.noConfusion hE
    · obtain ⟨hs, ho⟩ := add_study_provenance_triples m r.phenotyping_center r.colony
        r.project_fullname r.pipeline_name r.pipeline_stable_id r.procedure_stable_id
        r.procedure_name r.parameter_stable_id r.parameter_name r.statistical_method
        r.resource_name e h s p o hE
      subst hs
      refine ⟨hF2, ?_⟩
      rcases ho with rfl | rfl | rfl | rfl | rfl | rfl
      · exact h1
      · exact h2
      · exact h3
      · exact h4
      · exact h5
      · exact h6
    · obtain ⟨⟨key, val, hs⟩, ho⟩ := add_evidence_triples m
        ((mkAssociation (sqgIdOf r) r.mp_term_id).2) ecoId r.p_value
        r.percentage_change r.effect_size
        (mintStudyId r.phenotyping_center r.colony r.project_fullname
          r.pipeline_stable_id r.procedure_stable_id r.parameter_stable_id
          r.statistical_method r.resource_name) e h s p o hE
      subst hs
      subst ho
      exact ⟨hkey key val, hF2⟩

theorem C10_witness :
    Event.addIndividual (make_id sampleRow.colony "_") (some sampleRow.colony) none
      ∈ (processRow false sampleMaps sampleRow).1
    ∧ make_id sampleRow.colony "_" ≠ normColonyId sampleRow.colony :=
  ⟨(C10_theorem sampleMaps sampleRow (by decide) (by decide) (by decide) (by decide)
      (by decide) (by decide) (by decide) (by decide) (by decide) (by decide)).2.1,
   (C10_theorem sampleMaps sampleRow (by decide) (by decide) (by decide) (by decide)
      (by decide) (by decide) (by decide) (by decide) (by decide) (by decide)).2.2.1⟩

/-! ## Claim C9 -/

/-- C9: confirmed.  The description of lines 469-486 never raises: when
both `effect_size` and `p_value` parse as numbers the `try` branch renders
the effect size rounded to 5 decimal places and the p-value in scientific
notation with 4 digits after the point, otherwise the `except ValueError`
branch renders both raw strings verbatim.  Concretely,
`effect_size="0.123456789"`, `p_value="0.00001"` renders `0.12346` and
`1.0000e-05`, while `effect_size="abc"`, `p_value="0.01"` renders `abc`
and `0.01` verbatim. -/
theorem C9_theorem :
    mkDescription "abnormal gait" "UCD" "Rotarod" " latency" "0.123456789" "0.00001"
      = "abnormal gait phenotype determined by UCD in an Rotarod assay where latency was measured with an effect_size of 0.12346 (p = 1.0000e-05 )."
    ∧ mkDescription "abnormal gait" "UCD" "Rotarod" " latency" "abc" "0.01"
      = "abnormal gait phenotype determined by UCD in an Rotarod assay where latency was measured with an effect_size of abc (p = 0.01 )."
    ∧ (∀ mp c pn pm es pv : String, pyFloat es = none ∨ pyFloat pv = none →
        mkDescription mp c pn pm es pv
          = String.intercalate " "
              [mp, "phenotype determined by", c, "in an", pn, "assay where", pyStrip pm,
               "was measured with an effect_size of", es, "(p =", pv, ")."])
    ∧ (∀ (mp c pn pm es pv : String) (qe qp : Dec),
        pyFloat es = some qe → pyFloat pv = some qp →
        mkDescription mp c pn pm es pv
          = String.intercalate " "
              [mp, "phenotype determined by", c, "in an", pn, "assay where", pyStrip pm,
               "was measured with an effect_size of", pyRound5Str qe,
               "(p =", formatSci4 qp, ")."]) := by
  refine ⟨by decide, by decide, ?_, ?_⟩
  · intro mp c pn pm es pv h
    unfold mkDescription
    rcases h with h | h
    · rw [h]
    · rcases he : pyFloat es with _ | qe
      · rfl
      · rw [h]
  · intro mp c pn pm es pv qe qp he hp
    unfold mkDescription
    rw [he, hp]

theorem C9_witness :
    mkDescription "some phenotype" "WTSI" "Grip Strength" "strength" "abc" "0.01"
      = String.intercalate " "
          ["some phenotype", "phenotype determined by", "WTSI", "in an", "Grip Strength",
           "assay where", "strength",
           "was measured with an effect_size of", "abc", "(p =", "0.01", ")."] :=
  C9_theorem.2.2.1 "some phenotype" "WTSI" "Grip Strength" "strength" "abc" "0.01"
    (Or.inl (by decide))

theorem C7_witness :
    processRows false (some 5) sampleMaps 0 [skipRow]
      = (rowsEvents sampleMaps [skipRow], FileResult.completed)
    ∧ processRow true sampleMaps { sampleRow with marker_accession_id := "MGI:999" }
      = ([], RowResult.skip) :=
  ⟨C7_amended_theorem.1 sampleMaps 5 0 [skipRow] (by decide),
   C7_amended_theorem.2.2.2 sampleMaps { sampleRow with marker_accession_id := "MGI:999" }
     (by decide)⟩

end Dipper
